import Mathlib

/-!
canvas_app: scene store and renderers

A shallow embedding of `src/server.js` (the Express handlers that own the
global `canvasState`, `drawElement` and the export handler) and of
`src/public/script.js` (`updateCanvasPreview` / `drawElementOnPreview`).

Conventions of the embedding:

* Numbers are IEEE 754 binary64 values: every conversion from a decimal (a JSON
  number, a numeric string, the digits read by `parseInt`) and every addition
  rounds to the nearest Number, ties to even. The sign of zero is not kept: no
  expression of the two files tells `-0` from `0`.
* A request field is a JavaScript value as it reaches a handler in `req.body`:
  absent (`undefined`), `null`, a boolean, a number (kept as the decimal
  written in the JSON text), a string, or an array or object, which is kept by
  what converting it to a primitive gives (a string, or a thrown `TypeError`).
* `req.body` itself may be `undefined` (a request without a parsed body, where
  the framework version leaves it so); destructuring it then throws.
* An element id is `Date.now().toString()`; the clock reading is an input of
  every add handler.
* A drawing context is modelled by the list of calls completed on it; a call
  that the context rejects throws and is not in the list.
* The preview is given the scene as the store holds it. (A field that is not
  finite cannot be carried by JSON and would reach the browser as `null`; the
  statements about the preview are about scenes with finite fields or do not
  depend on the field values.)
-/

set_option maxRecDepth 100000
set_option exponentiation.threshold 2000

namespace CanvasApp

/-! ## Numbers -/

/-- A value of the JavaScript Number type (IEEE 754 binary64): the finite
number `num / 2 ^ exp`, `NaN`, `Infinity` or `-Infinity`. Finite values are
kept in lowest terms (`exp = 0` or `num` odd), so an integer `n` is `fin n 0`.
The sign of zero is not kept. -/
inductive JsNumber where
  | fin (num : ℤ) (exp : ℕ)
  | nan
  | posInf
  | negInf
  deriving DecidableEq, Repr

/-- Number of binary digits of `n`, counted with at most `fuel` halvings. -/
def bitLengthAux : ℕ → ℕ → ℕ
  | 0, _ => 0
  | fuel + 1, n => if n = 0 then 0 else bitLengthAux fuel (n / 2) + 1

/-- Number of binary digits of `n` (`0` for `0`). -/
def bitLength (n : ℕ) : ℕ := bitLengthAux n n

/-- The finite number `num / 2 ^ exp` in lowest terms. -/
def normDyadic (num : ℤ) : ℕ → JsNumber
  | 0 => .fin num 0
  | exp + 1 => if num % 2 = 0 then normDyadic (num / 2) exp else .fin num (exp + 1)

/-- The Number nearest to the rational `a / b` (`b > 0`), ties to the even
significand, as IEEE 754 round-to-nearest does: 53 significant bits, gradual
underflow with quantum `2 ^ -1074`, overflow to an infinity from `2 ^ 1024`. -/
def roundRatio (a : ℤ) (b : ℕ) : JsNumber :=
  let n := a.natAbs
  if n = 0 ∨ b = 0 then .fin 0 0
  else
    let e0 : ℤ := (bitLength n : ℤ) - (bitLength b : ℤ)
    let atLeast : Bool :=
      if 0 ≤ e0 then decide (b * 2 ^ e0.toNat ≤ n) else decide (b ≤ n * 2 ^ (-e0).toNat)
    let e : ℤ := if atLeast then e0 else e0 - 1
    let q : ℤ := max (e - 52) (-1074)
    let top : ℕ := if 0 ≤ q then n else n * 2 ^ (-q).toNat
    let bottom : ℕ := if 0 ≤ q then b * 2 ^ q.toNat else b
    let m : ℕ := top / bottom
    let r : ℕ := top % bottom
    let m' : ℕ := if bottom < 2 * r ∨ (2 * r = bottom ∧ m % 2 = 1) then m + 1 else m
    if m' = 0 then .fin 0 0
    else if 0 ≤ q then
      if 2 ^ 1024 ≤ m' * 2 ^ q.toNat then (if a < 0 then .negInf else .posInf)
      else .fin (a.sign * ((m' * 2 ^ q.toNat : ℕ) : ℤ)) 0
    else normDyadic (a.sign * (m' : ℤ)) (-q).toNat

/-- The Number for the integer `n`: `n` itself up to `2 ^ 53` in magnitude, the
nearest Number beyond. -/
def JsNumber.ofInt (n : ℤ) : JsNumber :=
  if n.natAbs ≤ 2 ^ 53 then .fin n 0 else roundRatio n 1

/-- The Number for the decimal `mant / 10 ^ scale`, as `JSON.parse` and numeric
string conversion produce it. -/
def JsNumber.ofDecimal (mant : ℤ) (scale : ℕ) : JsNumber :=
  if scale = 0 then JsNumber.ofInt mant else roundRatio mant (10 ^ scale)

/-- Number of decimal digits of `n`, counted with at most `fuel` divisions. -/
def decimalLengthAux : ℕ → ℕ → ℕ
  | 0, _ => 0
  | fuel + 1, n => if n = 0 then 0 else decimalLengthAux fuel (n / 10) + 1

/-- Number of decimal digits of `n` (`0` for `0`). -/
def decimalLength (n : ℕ) : ℕ := decimalLengthAux n n

/-- The least `j` within `fuel` steps from `j` with `2 ^ exp ≤ n * 10 ^ j`. -/
def leastShiftAux (n exp : ℕ) : ℕ → ℕ → ℕ
  | 0, j => j
  | fuel + 1, j => if 2 ^ exp ≤ n * 10 ^ j then j else leastShiftAux n exp fuel (j + 1)

/-- The integer `floor (log10 (n / 2 ^ exp))` for `n > 0`. -/
def decimalExponent (n exp : ℕ) : ℤ :=
  if 2 ^ exp ≤ n then (decimalLength (n / 2 ^ exp) : ℤ) - 1
  else -(leastShiftAux n exp (exp + 1) 1 : ℤ)

/-- The Number for `c * 10 ^ s`. -/
def ofScaled (c : ℕ) (s : ℤ) : JsNumber :=
  if 0 ≤ s then roundRatio ((c * 10 ^ s.toNat : ℕ) : ℤ) 1 else roundRatio (c : ℤ) (10 ^ (-s).toNat)

/-- The shortest decimal that converts back to the positive Number
`n / 2 ^ exp`, as `Number::toString` chooses it: `(s, k, e)` stands for the
digits `s` (`k` of them, no leading zero) and the value `0.s * 10 ^ e`. The
digit count `p` runs upward from the given value for at most `fuel` steps (17
digits always suffice); among the decimals with `p` digits that convert back,
the one nearest to the Number is taken, the even one on a tie. `k10` is the
decimal exponent of the Number. -/
def shortestAux (n exp : ℕ) (k10 : ℤ) : ℕ → ℕ → ℕ × ℕ × ℤ
  | 0, _ => (0, 1, 0)
  | fuel + 1, p =>
    let s : ℤ := k10 - (p : ℤ) + 1
    let top : ℕ := if 0 ≤ s then n else n * 10 ^ (-s).toNat
    let bottom : ℕ := if 0 ≤ s then 2 ^ exp * 10 ^ s.toNat else 2 ^ exp
    let lo : ℕ := top / bottom
    let r : ℕ := top % bottom
    let okLo : Bool := decide (ofScaled lo s = .fin (n : ℤ) exp)
    let okHi : Bool := decide (ofScaled (lo + 1) s = .fin (n : ℤ) exp)
    let pick (c : ℕ) : ℕ × ℕ × ℤ := if c = 10 ^ p then (1, 1, k10 + 2) else (c, p, k10 + 1)
    if okLo && okHi then
      (if 2 * r < bottom ∨ (2 * r = bottom ∧ lo % 2 = 0) then pick lo else pick (lo + 1))
    else if okLo then pick lo
    else if okHi then pick (lo + 1)
    else shortestAux n exp k10 fuel (p + 1)

/-- The shortest decimal that converts back to the positive Number
`n / 2 ^ exp`. -/
def shortest (n exp : ℕ) : ℕ × ℕ × ℤ :=
  shortestAux n exp (decimalExponent n exp) 17 1

/-- The function `parseInt` applied to a Number: the Number is first converted
to a string by `Number::toString`. `NaN` and the infinities print as words
without a digit. An integer up to `2 ^ 53` prints as its own digits. Otherwise,
with the shortest decimal `0.s * 10 ^ e`: for `-6 < e ≤ 21` the string is
positional and `parseInt` reads its integer part; else it is in exponent
notation (`d.ddde±x` or `de±x`) and `parseInt` reads only the first digit. -/
def parseIntNumber : JsNumber → JsNumber
  | .nan => .nan
  | .posInf => .nan
  | .negInf => .nan
  | .fin num exp =>
    let a := num.natAbs
    if a = 0 then .fin 0 0
    else if exp = 0 ∧ a ≤ 2 ^ 53 then .fin num 0
    else
      let d := shortest a exp
      let s := d.1
      let k := d.2.1
      let e := d.2.2
      let integerPart : ℕ :=
        if -6 < e ∧ e ≤ 21 then
          (if e ≤ 0 then 0
           else if (k : ℤ) ≤ e then s * 10 ^ (e - (k : ℤ)).toNat
           else s / 10 ^ ((k : ℤ) - e).toNat)
        else s / 10 ^ (k - 1)
      JsNumber.ofInt (num.sign * (integerPart : ℤ))

/-- Number-to-Boolean conversion: `0` and `NaN` are falsy. -/
def JsNumber.truthy : JsNumber → Bool
  | .fin num _ => decide (num ≠ 0)
  | .nan => false
  | .posInf => true
  | .negInf => true

/-- The comparison `n <= 0` on a Number: false for `NaN`. -/
def JsNumber.leZero : JsNumber → Bool
  | .fin num _ => decide (num ≤ 0)
  | .nan => false
  | .posInf => false
  | .negInf => true

/-- The comparison `n > 0` on a Number: false for `NaN`. -/
def JsNumber.gtZero : JsNumber → Bool
  | .fin num _ => decide (0 < num)
  | .nan => false
  | .posInf => true
  | .negInf => false

/-- Whether a Number is finite. -/
def JsNumber.isFinite : JsNumber → Bool
  | .fin _ _ => true
  | _ => false

/-- Whether a Number is finite and below zero. -/
def JsNumber.isNegative : JsNumber → Bool
  | .fin num _ => decide (num < 0)
  | _ => false

/-- Number addition (`+` on two Numbers): the exact sum, rounded. -/
def JsNumber.add : JsNumber → JsNumber → JsNumber
  | .nan, _ => .nan
  | _, .nan => .nan
  | .posInf, .negInf => .nan
  | .negInf, .posInf => .nan
  | .posInf, _ => .posInf
  | _, .posInf => .posInf
  | .negInf, _ => .negInf
  | _, .negInf => .negInf
  | .fin a j, .fin b k =>
    if j = 0 ∧ k = 0 then JsNumber.ofInt (a + b)
    else roundRatio (a * 2 ^ (max j k - j) + b * 2 ^ (max j k - k)) (2 ^ max j k)

/-- Unary minus on a Number. -/
def JsNumber.neg : JsNumber → JsNumber
  | .fin num exp => .fin (-num) exp
  | .nan => .nan
  | .posInf => .negInf
  | .negInf => .posInf

instance : Add JsNumber := ⟨JsNumber.add⟩

instance : Neg JsNumber := ⟨JsNumber.neg⟩

instance (n : ℕ) : OfNat JsNumber n := ⟨JsNumber.ofInt (n : ℤ)⟩

/-! ## JavaScript values -/

/-- A value found in a field of `req.body` (or `undefined` when the field is
absent). `num mant scale` is the JSON number written `mant / 10 ^ scale`, which
reaches the handler as the Number nearest to it. `object prim` is an array or
object whose conversion to a primitive gives the string `prim` (`"1,2"` for
`[1,2]`, `"[object Object]"` for `{}`); `unconvertible message` is an array or
object whose conversion throws a `TypeError` with that message (an object with
an own, non-callable `toString`, such as `{"toString":1}`). -/
inductive JsValue where
  | undefined
  | null
  | bool (b : Bool)
  | num (mant : ℤ) (scale : ℕ)
  | str (s : String)
  | object (prim : String)
  | unconvertible (message : String)
  deriving DecidableEq, Repr

/-- An integer JSON number. -/
def JsValue.int (n : ℤ) : JsValue := JsValue.num n 0

/-- ECMAScript `ToBoolean`: `undefined`, `null`, `false`, `0`, `NaN` and the
empty string are falsy; every array and object is truthy. -/
def toBoolean : JsValue → Bool
  | .undefined => false
  | .null => false
  | .bool b => b
  | .num mant scale => (JsNumber.ofDecimal mant scale).truthy
  | .str s => decide (s ≠ "")
  | .object _ => true
  | .unconvertible _ => true

/-- The characters skipped by `parseInt` and trimmed by `ToNumber` on a string
(WhiteSpace and LineTerminator code points). -/
def isStrWhiteSpace (c : Char) : Bool :=
  let n := c.toNat
  n = 9 || n = 10 || n = 11 || n = 12 || n = 13 || n = 32 || n = 160 ||
    n = 5760 || (8192 ≤ n && n ≤ 8202) || n = 8232 || n = 8233 ||
    n = 8239 || n = 8287 || n = 12288 || n = 65279

/-- Value of a character as a digit (`0-9`, `a-z`, `A-Z`), if it is one. -/
def digitValue (c : Char) : Option ℕ :=
  let n := c.toNat
  if 48 ≤ n ∧ n ≤ 57 then some (n - 48)
  else if 97 ≤ n ∧ n ≤ 122 then some (n - 87)
  else if 65 ≤ n ∧ n ≤ 90 then some (n - 55)
  else none

/-- Splits off the longest prefix of digits of the given radix; returns the
digit values and the rest. -/
def spanDigits (radix : ℕ) : List Char → List ℕ × List Char
  | [] => ([], [])
  | c :: cs =>
    match digitValue c with
    | some d =>
      if d < radix then
        let r := spanDigits radix cs
        (d :: r.1, r.2)
      else ([], c :: cs)
    | none => ([], c :: cs)

/-- The number written by a list of digit values, most significant first. -/
def digitsToNat (radix : ℕ) (ds : List ℕ) : ℕ :=
  ds.foldl (fun acc d => acc * radix + d) 0

/-- The `parseInt(string)` algorithm with no radix argument: skip leading white
space, read a sign, read a `0x`/`0X` prefix (radix 16, else 10), read the
longest digit prefix; `NaN` when there is no digit, else the Number nearest to
the integer read. -/
def parseIntChars (cs : List Char) : JsNumber :=
  let s := cs.dropWhile isStrWhiteSpace
  let signed : Bool × List Char :=
    match s with
    | '-' :: r => (true, r)
    | '+' :: r => (false, r)
    | _ => (false, s)
  let prefixed : ℕ × List Char :=
    match signed.2 with
    | '0' :: 'x' :: r => (16, r)
    | '0' :: 'X' :: r => (16, r)
    | r => (10, r)
  let ds := (spanDigits prefixed.1 prefixed.2).1
  if ds = [] then .nan
  else if signed.1 then JsNumber.ofInt (-(digitsToNat prefixed.1 ds : ℤ))
  else JsNumber.ofInt (digitsToNat prefixed.1 ds : ℤ)

/-- An exponent part after a decimal mantissa: nothing, or `e`/`E`, an optional
sign and at least one digit, up to the end of the string. -/
def parseExponent : List Char → Option ℤ
  | [] => some 0
  | c :: r =>
    if c = 'e' ∨ c = 'E' then
      let signed : Bool × List Char :=
        match r with
        | '-' :: t => (true, t)
        | '+' :: t => (false, t)
        | _ => (false, r)
      let sp := spanDigits 10 signed.2
      if sp.1 = [] ∨ sp.2 ≠ [] then none
      else if signed.1 then some (-(digitsToNat 10 sp.1 : ℤ))
      else some (digitsToNat 10 sp.1 : ℤ)
    else none

/-- An unsigned decimal literal `ddd`, `ddd.ddd`, `ddd.`, `.ddd`, each with an
optional exponent: returns `(m, e)` for the value `m * 10 ^ e`. -/
def parseUnsignedDecimal (cs : List Char) : Option (ℕ × ℤ) :=
  let ip := spanDigits 10 cs
  let fp : List ℕ × List Char :=
    match ip.2 with
    | '.' :: r => spanDigits 10 r
    | r => ([], r)
  if ip.1 = [] ∧ fp.1 = [] then none
  else
    match parseExponent fp.2 with
    | none => none
    | some e => some (digitsToNat 10 (ip.1 ++ fp.1), e - (fp.1.length : ℤ))

/-- An integer literal in radix 2, 8 or 16 after its `0b`/`0o`/`0x` prefix. -/
def parseRadixLiteral (radix : ℕ) (cs : List Char) : JsNumber :=
  let sp := spanDigits radix cs
  if sp.1 = [] ∨ sp.2 ≠ [] then .nan else JsNumber.ofInt (digitsToNat radix sp.1 : ℤ)

/-- The Number nearest to `± m * 10 ^ e`. -/
def decimalNumber (neg : Bool) (m : ℕ) (e : ℤ) : JsNumber :=
  let sm : ℤ := if neg then -(m : ℤ) else (m : ℤ)
  if 0 ≤ e then JsNumber.ofInt (sm * 10 ^ e.toNat) else roundRatio sm (10 ^ (-e).toNat)

/-- ECMAScript `StringToNumber`: trim white space; the empty string is `0`;
unsigned binary, octal and hexadecimal integer literals; a signed `Infinity`
or decimal literal; anything else is `NaN`. -/
def stringToNumber (cs : List Char) : JsNumber :=
  let t := ((cs.dropWhile isStrWhiteSpace).reverse.dropWhile isStrWhiteSpace).reverse
  match t with
  | [] => .fin 0 0
  | '0' :: 'x' :: r => parseRadixLiteral 16 r
  | '0' :: 'X' :: r => parseRadixLiteral 16 r
  | '0' :: 'o' :: r => parseRadixLiteral 8 r
  | '0' :: 'O' :: r => parseRadixLiteral 8 r
  | '0' :: 'b' :: r => parseRadixLiteral 2 r
  | '0' :: 'B' :: r => parseRadixLiteral 2 r
  | _ =>
    let signed : Bool × List Char :=
      match t with
      | '-' :: r => (true, r)
      | '+' :: r => (false, r)
      | _ => (false, t)
    if signed.2 = ['I', 'n', 'f', 'i', 'n', 'i', 't', 'y'] then
      (if signed.1 then .negInf else .posInf)
    else
      match parseUnsignedDecimal signed.2 with
      | none => .nan
      | some me => decimalNumber signed.1 me.1 me.2

/-- ECMAScript `ToNumber`; an array or object is first converted to a
primitive, which may throw. -/
def toNumber : JsValue → Except String JsNumber
  | .undefined => .ok .nan
  | .null => .ok (.fin 0 0)
  | .bool b => .ok (if b then .fin 1 0 else .fin 0 0)
  | .num mant scale => .ok (JsNumber.ofDecimal mant scale)
  | .str s => .ok (stringToNumber s.toList)
  | .object prim => .ok (stringToNumber prim.toList)
  | .unconvertible message => .error message

/-- The global function `parseInt(v)` for one argument: `ToString(v)`, which
may throw on an array or object, then the string algorithm. `undefined`,
`null`, `true` and `false` print as words without digits, so they give
`NaN`. -/
def parseInt : JsValue → Except String JsNumber
  | .undefined => .ok .nan
  | .null => .ok .nan
  | .bool _ => .ok .nan
  | .num mant scale => .ok (parseIntNumber (JsNumber.ofDecimal mant scale))
  | .str s => .ok (parseIntChars s.toList)
  | .object prim => .ok (parseIntChars prim.toList)
  | .unconvertible message => .error message

/-- The idiom `parseInt(v) || d`: `NaN` and `0` are falsy, so the default `d`
is taken in their place. -/
def parseIntOr (v : JsValue) (d : JsNumber) : Except String JsNumber :=
  match parseInt v with
  | .ok n => .ok (if n.truthy then n else d)
  | .error message => .error message

/-- The idiom `v || d` on a field that is stored as it is. -/
def orDefault (v : JsValue) (d : JsValue) : JsValue :=
  if toBoolean v then v else d

/-- The expression `v <= 0`: the left operand goes through `ToNumber`. -/
def leZero (v : JsValue) : Except String Bool :=
  match toNumber v with
  | .ok n => .ok n.leZero
  | .error message => .error message

/-- The expression `v > 0`. -/
def gtZero (v : JsValue) : Except String Bool :=
  match toNumber v with
  | .ok n => .ok n.gtZero
  | .error message => .error message

/-! ## The scene store (`canvasState` in `src/server.js`) -/

/-- One entry of `canvasState.elements`. `id` is the string
`Date.now().toString()`. Numeric fields are what `parseInt(..) || default`
leaves. A field that an image element does not carry (`imageData` or
`imageUrl`) is `undefined`. -/
inductive Element where
  | rectangle (id : String) (x y width height : JsNumber)
      (fillColor strokeColor : JsValue) (strokeWidth : JsNumber)
  | circle (id : String) (x y radius : JsNumber)
      (fillColor strokeColor : JsValue) (strokeWidth : JsNumber)
  | text (id : String) (x y : JsNumber) (text : JsValue) (fontSize : JsNumber)
      (fontFamily color : JsValue)
  | image (id : String) (x y width height : JsNumber) (imageData imageUrl : JsValue)
  deriving DecidableEq, Repr

/-- The `id` field of an element. -/
def Element.id : Element → String
  | .rectangle id _ _ _ _ _ _ _ => id
  | .circle id _ _ _ _ _ _ => id
  | .text id _ _ _ _ _ _ => id
  | .image id _ _ _ _ _ _ => id

/-- The object `canvasState`. -/
structure Scene where
  width : JsNumber
  height : JsNumber
  elements : List Element
  deriving DecidableEq, Repr

/-- The value `canvasState` is initialised with when the server starts. -/
def initialState : Scene := { width := 800, height := 600, elements := [] }

/-- The JSON object sent by a handler: `{ success: true, message?, element?,
canvas }` or `{ error }`. -/
inductive Body where
  | success (message : Option String) (element : Option Element) (canvas : Scene)
  | error (error : String)
  deriving DecidableEq, Repr

/-- HTTP status and body of a response. -/
structure Response where
  status : ℕ
  body : Body
  deriving DecidableEq, Repr

/-- The response of a `catch` block: `res.status(500).json({ error:
error.message })`. -/
def serverError (message : String) : Response :=
  { status := 500, body := .error message }

/-- Fields read from `req.body` by `init`. -/
structure InitBody where
  width : JsValue
  height : JsValue
  deriving DecidableEq, Repr

/-- Handler of `POST /api/canvas/init`. `body` is `req.body`; destructuring an
`undefined` body throws, and so does comparing or parsing a field that cannot
be converted to a primitive: the `catch` block answers 500. The guard
`!width || !height || width <= 0 || height <= 0` is evaluated left to right
and stops at the first true operand. -/
def init (canvasState : Scene) (body : Option InitBody) : Response × Scene :=
  match body with
  | none =>
    (serverError "Cannot destructure property width of req.body as it is undefined.",
      canvasState)
  | some b =>
    if !toBoolean b.width || !toBoolean b.height then
      ({ status := 400, body := .error "Valid width and height are required" }, canvasState)
    else
      match leZero b.width with
      | .error message => (serverError message, canvasState)
      | .ok true =>
        ({ status := 400, body := .error "Valid width and height are required" },
          canvasState)
      | .ok false =>
        match leZero b.height with
        | .error message => (serverError message, canvasState)
        | .ok true =>
          ({ status := 400, body := .error "Valid width and height are required" },
            canvasState)
        | .ok false =>
          match parseInt b.width with
          | .error message => (serverError message, canvasState)
          | .ok width =>
            match parseInt b.height with
            | .error message => (serverError message, canvasState)
            | .ok height =>
              let canvasState' : Scene := { width := width, height := height, elements := [] }
              ({ status := 200,
                 body := .success (some "Canvas initialized") none canvasState' },
                canvasState')

/-- Fields read from `req.body` by `add-rectangle`. -/
structure RectangleBody where
  x : JsValue
  y : JsValue
  width : JsValue
  height : JsValue
  fillColor : JsValue
  strokeColor : JsValue
  strokeWidth : JsValue
  deriving DecidableEq, Repr

/-- Fields read from `req.body` by `add-circle`. -/
structure CircleBody where
  x : JsValue
  y : JsValue
  radius : JsValue
  fillColor : JsValue
  strokeColor : JsValue
  strokeWidth : JsValue
  deriving DecidableEq, Repr

/-- Fields read from `req.body` by `add-text`. -/
structure TextBody where
  x : JsValue
  y : JsValue
  text : JsValue
  fontSize : JsValue
  fontFamily : JsValue
  color : JsValue
  deriving DecidableEq, Repr

/-- Fields read from `req.body` by `add-image`. -/
structure ImageBody where
  x : JsValue
  y : JsValue
  width : JsValue
  height : JsValue
  imageUrl : JsValue
  deriving DecidableEq, Repr

/-- The step `canvasState.elements.push(element); res.json({ success: true,
element, canvas: canvasState })` shared by the add handlers. -/
def pushElement (canvasState : Scene) (element : Element) : Response × Scene :=
  let canvasState' : Scene :=
    { canvasState with elements := canvasState.elements ++ [element] }
  ({ status := 200, body := .success none (some element) canvasState' }, canvasState')

/-- The end of an add handler: push the element built in the `try` block, or
answer 500 from the `catch` block when building it threw. -/
def pushOrFail (canvasState : Scene) (built : Except String Element) : Response × Scene :=
  match built with
  | .ok element => pushElement canvasState element
  | .error message => (serverError message, canvasState)

/-- The object literal `element` of `add-rectangle`, its fields evaluated in
source order; `now` is `Date.now()`. -/
def rectangleElement (now : ℕ) (b : RectangleBody) : Except String Element :=
  match parseIntOr b.x 0 with
  | .error message => .error message
  | .ok x =>
    match parseIntOr b.y 0 with
    | .error message => .error message
    | .ok y =>
      match parseIntOr b.width 100 with
      | .error message => .error message
      | .ok width =>
        match parseIntOr b.height 100 with
        | .error message => .error message
        | .ok height =>
          match parseIntOr b.strokeWidth 1 with
          | .error message => .error message
          | .ok strokeWidth =>
            .ok (.rectangle (toString now) x y width height
              (orDefault b.fillColor (.str "#000000"))
              (orDefault b.strokeColor (.str "#000000")) strokeWidth)

/-- Handler of `POST /api/canvas/add-rectangle`. -/
def addRectangle (now : ℕ) (canvasState : Scene) (body : Option RectangleBody) :
    Response × Scene :=
  match body with
  | none =>
    (serverError "Cannot destructure property x of req.body as it is undefined.",
      canvasState)
  | some b => pushOrFail canvasState (rectangleElement now b)

/-- The object literal `element` of `add-circle`. -/
def circleElement (now : ℕ) (b : CircleBody) : Except String Element :=
  match parseIntOr b.x 0 with
  | .error message => .error message
  | .ok x =>
    match parseIntOr b.y 0 with
    | .error message => .error message
    | .ok y =>
      match parseIntOr b.radius 50 with
      | .error message => .error message
      | .ok radius =>
        match parseIntOr b.strokeWidth 1 with
        | .error message => .error message
        | .ok strokeWidth =>
          .ok (.circle (toString now) x y radius
            (orDefault b.fillColor (.str "#000000"))
            (orDefault b.strokeColor (.str "#000000")) strokeWidth)

/-- Handler of `POST /api/canvas/add-circle`. -/
def addCircle (now : ℕ) (canvasState : Scene) (body : Option CircleBody) :
    Response × Scene :=
  match body with
  | none =>
    (serverError "Cannot destructure property x of req.body as it is undefined.",
      canvasState)
  | some b => pushOrFail canvasState (circleElement now b)

/-- The object literal `element` of `add-text`. -/
def textElement (now : ℕ) (b : TextBody) : Except String Element :=
  match parseIntOr b.x 0 with
  | .error message => .error message
  | .ok x =>
    match parseIntOr b.y 0 with
    | .error message => .error message
    | .ok y =>
      match parseIntOr b.fontSize 16 with
      | .error message => .error message
      | .ok fontSize =>
        .ok (.text (toString now) x y b.text fontSize
          (orDefault b.fontFamily (.str "Arial")) (orDefault b.color (.str "#000000")))

/-- Handler of `POST /api/canvas/add-text`. -/
def addText (now : ℕ) (canvasState : Scene) (body : Option TextBody) : Response × Scene :=
  match body with
  | none =>
    (serverError "Cannot destructure property x of req.body as it is undefined.",
      canvasState)
  | some b =>
    if !toBoolean b.text then
      ({ status := 400, body := .error "Text content is required" }, canvasState)
    else pushOrFail canvasState (textElement now b)

/-- Bytes of an uploaded file (`req.file.buffer`). -/
abbrev Buffer := List ℕ

/-- The object literal `element` of `add-image`, given its `imageData` and
`imageUrl`. -/
def imageElement (now : ℕ) (b : ImageBody) (imageData imageUrl : JsValue) :
    Except String Element :=
  match parseIntOr b.x 0 with
  | .error message => .error message
  | .ok x =>
    match parseIntOr b.y 0 with
    | .error message => .error message
    | .ok y =>
      match parseIntOr b.width 100 with
      | .error message => .error message
      | .ok width =>
        match parseIntOr b.height 100 with
        | .error message => .error message
        | .ok height => .ok (.image (toString now) x y width height imageData imageUrl)

/-- The upload path of `add-image`: the resize arguments, the awaited `sharp`
pipeline, then the element. -/
def uploadedImageElement (sharp : Buffer → JsNumber → JsNumber → Except String String)
    (now : ℕ) (imageBuffer : Buffer) (b : ImageBody) : Except String Element :=
  match parseIntOr b.width 100 with
  | .error message => .error message
  | .ok width =>
    match parseIntOr b.height 100 with
    | .error message => .error message
    | .ok height =>
      match sharp imageBuffer width height with
      | .error message => .error message
      | .ok processedImage => imageElement now b (.str processedImage) .undefined

/-- Handler of `POST /api/canvas/add-image`. `file` is `req.file` (set by the
upload middleware when a file part is present). `sharp buffer w h` stands for
`sharp(buffer).resize(w, h).png().toBuffer()` followed by
`.toString('base64')`: either the base64 text or the error thrown. -/
def addImage (sharp : Buffer → JsNumber → JsNumber → Except String String) (now : ℕ)
    (canvasState : Scene) (file : Option Buffer) (body : Option ImageBody) :
    Response × Scene :=
  match body with
  | none =>
    (serverError "Cannot destructure property x of req.body as it is undefined.",
      canvasState)
  | some b =>
    match file with
    | some imageBuffer =>
      pushOrFail canvasState (uploadedImageElement sharp now imageBuffer b)
    | none =>
      if toBoolean b.imageUrl then
        pushOrFail canvasState (imageElement now b .undefined b.imageUrl)
      else
        ({ status := 400, body := .error "Image file or URL is required" }, canvasState)

/-- Handler of `GET /api/canvas/state`. -/
def getState (canvasState : Scene) : Response × Scene :=
  ({ status := 200, body := .success none none canvasState }, canvasState)

/-- Handler of `POST /api/canvas/clear`. -/
def clear (canvasState : Scene) : Response × Scene :=
  let canvasState' : Scene := { canvasState with elements := [] }
  ({ status := 200, body := .success none none canvasState' }, canvasState')

/-- A request to one of the handlers that read or assign `canvasState`, with
`req.body` where the handler reads it. -/
inductive Request where
  | init (body : Option InitBody)
  | addRectangle (body : Option RectangleBody)
  | addCircle (body : Option CircleBody)
  | addText (body : Option TextBody)
  | addImage (file : Option Buffer) (body : Option ImageBody)
  | getState
  | clear
  deriving DecidableEq, Repr

/-- Express routing: the handler registered for the request. -/
def handle (sharp : Buffer → JsNumber → JsNumber → Except String String) (now : ℕ)
    (canvasState : Scene) : Request → Response × Scene
  | .init body => init canvasState body
  | .addRectangle body => addRectangle now canvasState body
  | .addCircle body => addCircle now canvasState body
  | .addText body => addText now canvasState body
  | .addImage file body => addImage sharp now canvasState file body
  | .getState => getState canvasState
  | .clear => clear canvasState

/-- The store after serving a list of requests one after the other, each paired
with the clock reading at its time. -/
def run (sharp : Buffer → JsNumber → JsNumber → Except String String) :
    Scene → List (ℕ × Request) → Scene
  | canvasState, [] => canvasState
  | canvasState, (now, req) :: rest =>
    run sharp (handle sharp now canvasState req).2 rest

/-- The responses sent while serving a list of requests one after the other. -/
def responses (sharp : Buffer → JsNumber → JsNumber → Except String String) :
    Scene → List (ℕ × Request) → List Response
  | _, [] => []
  | canvasState, (now, req) :: rest =>
    (handle sharp now canvasState req).1 ::
      responses sharp (handle sharp now canvasState req).2 rest

/-- The requests that are add operations. -/
def Request.isAdd : Request → Bool
  | .addRectangle _ => true
  | .addCircle _ => true
  | .addText _ => true
  | .addImage _ _ => true
  | _ => false

/-- The element carried by a response, if any. -/
def Response.element : Response → Option Element
  | { status := _, body := .success _ e _ } => e
  | { status := _, body := .error _ } => none

/-- The scene carried by a response, if any. -/
def Response.canvas : Response → Option Scene
  | { status := _, body := .success _ _ c } => some c
  | { status := _, body := .error _ } => none

/-! ## The renderers -/

/-- The two angles passed to `ctx.arc`: `0` and `2 * Math.PI`. -/
inductive Angle where
  | zero
  | twoPi
  deriving DecidableEq, Repr

/-- What a drawn image was loaded from: base64 PNG data (`Buffer.from(data,
'base64')` on the server, a `data:image/png;base64,` URL in the browser) or a
URL. -/
inductive ImageSource where
  | base64 (imageData : JsValue)
  | url (imageUrl : JsValue)
  deriving DecidableEq, Repr

/-- A value assigned to `ctx.font`: the template
`${fontSize}px ${fontFamily}` or a string literal. -/
inductive Font where
  | sized (fontSize : JsNumber) (fontFamily : JsValue)
  | literal (s : String)
  deriving DecidableEq, Repr

/-- One call (or property assignment) on a 2D drawing context. -/
inductive DrawOp where
  | setFillStyle (v : JsValue)
  | setStrokeStyle (v : JsValue)
  | setLineWidth (w : JsNumber)
  | setFont (f : Font)
  | fillRect (x y w h : JsNumber)
  | strokeRect (x y w h : JsNumber)
  | beginPath
  | arc (cx cy r : JsNumber) (startAngle endAngle : Angle)
  | fill
  | stroke
  | fillText (text : JsValue) (x y : JsNumber)
  | drawImage (image : ImageSource) (x y w h : JsNumber)
  deriving DecidableEq, Repr

/-- The calls that a 2D context rejects by throwing. By the canvas API, `arc`
returns without effect when an argument is infinite or `NaN`, and otherwise
throws `IndexSizeError` when the radius is negative; no other call made by the
renderers throws. A browser does so (`strict = true`); whether the server's
canvas library does is left open (`strict` is a parameter there). -/
def rejects (strict : Bool) : DrawOp → Option String
  | .arc cx cy r _ _ =>
    if strict && cx.isFinite && cy.isFinite && r.isNegative then
      some "IndexSizeError: The radius provided is negative."
    else none
  | _ => none

/-- Makes the calls in order until the context rejects one: the calls
completed, and the error thrown if any. -/
def perform (strict : Bool) : List DrawOp → List DrawOp × Option String
  | [] => ([], none)
  | op :: ops =>
    match rejects strict op with
    | some message => ([], some message)
    | none => (op :: (perform strict ops).1, (perform strict ops).2)

/-- A block of calls outside any `try`: its calls when all complete, or the
error of the rejected one. -/
def attempt (strict : Bool) (ops : List DrawOp) : Except String (List DrawOp) :=
  match (perform strict ops).2 with
  | none => .ok (perform strict ops).1
  | some message => .error message

/-- The background step of both renderers: `ctx.fillStyle = '#ffffff';
ctx.fillRect(0, 0, width, height)`. -/
def whiteFill (scene : Scene) : List DrawOp :=
  [.setFillStyle (.str "#ffffff"), .fillRect 0 0 scene.width scene.height]

/-- The function `drawElement` of `src/server.js`: `.ok calls` when it returns,
with the calls completed on `ctx`, and `.error e` when it raises `e`. `load` is
the outcome of the statements of the `try` block up to the awaited
`loadImage(..)`: resolved, or the error thrown. The `catch` block of the image
case logs the error and makes no call on `ctx`; the other cases have no
`try`. -/
def drawElement (strict : Bool) (load : Except String Unit) :
    Element → Except String (List DrawOp)
  | .rectangle _ x y width height fillColor strokeColor strokeWidth =>
    attempt strict
      [.setFillStyle fillColor, .setStrokeStyle strokeColor, .setLineWidth strokeWidth,
        .fillRect x y width height, .strokeRect x y width height]
  | .circle _ x y radius fillColor strokeColor strokeWidth =>
    attempt strict
      [.beginPath, .arc (x + radius) (y + radius) radius .zero .twoPi,
        .setFillStyle fillColor, .fill, .setStrokeStyle strokeColor,
        .setLineWidth strokeWidth, .stroke]
  | .text _ x y text fontSize fontFamily color =>
    attempt strict
      [.setFillStyle color, .setFont (.sized fontSize fontFamily),
        .fillText text x (y + fontSize)]
  | .image _ x y width height imageData imageUrl =>
    let tryBlock : Except String (List DrawOp) :=
      if toBoolean imageData then
        match load with
        | .ok _ => attempt strict [.drawImage (.base64 imageData) x y width height]
        | .error e => .error e
      else if toBoolean imageUrl then
        match load with
        | .ok _ => attempt strict [.drawImage (.url imageUrl) x y width height]
        | .error e => .error e
      else .ok []
    match tryBlock with
    | .ok calls => .ok calls
    | .error _ => .ok []

/-- The loop `for (const element of canvasState.elements) await
drawElement(ctx, element)`; `loads i` is the outcome of the load awaited for
the element at position `i`. An error raised by `drawElement` leaves the
loop. -/
def drawElements (strict : Bool) (loads : ℕ → Except String Unit) :
    ℕ → List Element → Except String (List DrawOp)
  | _, [] => .ok []
  | i, e :: es =>
    match drawElement strict (loads i) e with
    | .error message => .error message
    | .ok calls =>
      match drawElements strict loads (i + 1) es with
      | .error message => .error message
      | .ok rest => .ok (calls ++ rest)

/-- The calls completed on `ctx` by the export handler before the document is
built: white background, then every element; or the error raised. -/
def exportRender (strict : Bool) (loads : ℕ → Except String Unit) (scene : Scene) :
    Except String (List DrawOp) :=
  match attempt strict (whiteFill scene) with
  | .error message => .error message
  | .ok background =>
    match drawElements strict loads 0 scene.elements with
    | .error message => .error message
    | .ok drawn => .ok (background ++ drawn)

/-- The callbacks attached to an `Image` created by `drawElementOnPreview`:
the calls made on `ctx` when `onload`, respectively `onerror`, fires (no calls
when the callback is not set). -/
structure ImageHandlers where
  onload : List DrawOp
  onerror : List DrawOp
  deriving DecidableEq, Repr

/-- What one call of `drawElementOnPreview` does: the calls completed on `ctx`
before it returns or raises, the callbacks of the image whose load it started,
and the error it raised, if any. -/
structure PreviewStep where
  calls : List DrawOp
  handlers : Option ImageHandlers
  raised : Option String
  deriving DecidableEq, Repr

/-- A block of calls made on the browser context outside any `try` and without
an image: the calls completed, and the error of the rejected one. -/
def previewCalls (ops : List DrawOp) : PreviewStep :=
  { calls := (perform true ops).1, handlers := none, raised := (perform true ops).2 }

/-- The function `drawElementOnPreview` of `src/public/script.js`, on a browser
context. -/
def drawElementOnPreview : Element → PreviewStep
  | .rectangle _ x y width height fillColor strokeColor strokeWidth =>
    previewCalls
      [.setFillStyle fillColor, .setStrokeStyle strokeColor, .setLineWidth strokeWidth,
        .fillRect x y width height, .strokeRect x y width height]
  | .circle _ x y radius fillColor strokeColor strokeWidth =>
    previewCalls
      [.beginPath, .arc (x + radius) (y + radius) radius .zero .twoPi,
        .setFillStyle fillColor, .fill, .setStrokeStyle strokeColor,
        .setLineWidth strokeWidth, .stroke]
  | .text _ x y text fontSize fontFamily color =>
    previewCalls
      [.setFillStyle color, .setFont (.sized fontSize fontFamily),
        .fillText text x (y + fontSize)]
  | .image _ x y width height imageData imageUrl =>
    if toBoolean imageData then
      { calls := [],
        handlers := some { onload := [.drawImage (.base64 imageData) x y width height],
                           onerror := [] },
        raised := none }
    else if toBoolean imageUrl then
      { calls := [],
        handlers := some
          { onload := [.drawImage (.url imageUrl) x y width height],
            onerror :=
              [.setFillStyle (.str "#cccccc"), .fillRect x y width height,
                .setFillStyle (.str "#666666"), .setFont (.literal "12px Arial"),
                .fillText (.str "Image failed to load") (x + 5) (y + 20)] },
        raised := none }
    else { calls := [], handlers := none, raised := none }

/-- What `updateCanvasPreview` does before it returns or raises: the calls
completed on `ctx`, the images left loading (each with the position of its
element), and the error raised, if any. -/
structure PreviewRun where
  calls : List DrawOp
  pending : List (ℕ × ImageHandlers)
  raised : Option String
  deriving DecidableEq, Repr

/-- The `forEach` loop of `updateCanvasPreview` from position `i` on. An error
raised by `drawElementOnPreview` leaves the loop: the later elements are not
drawn. -/
def previewElements : ℕ → List Element → PreviewRun
  | _, [] => { calls := [], pending := [], raised := none }
  | i, e :: es =>
    let step := drawElementOnPreview e
    let here : List (ℕ × ImageHandlers) :=
      match step.handlers with
      | some h => [(i, h)]
      | none => []
    match step.raised with
    | some message => { calls := step.calls, pending := here, raised := some message }
    | none =>
      let rest := previewElements (i + 1) es
      { calls := step.calls ++ rest.calls, pending := here ++ rest.pending,
        raised := rest.raised }

/-- The function `updateCanvasPreview` on the snapshot `currentCanvas`: white
background, then the loop. Setting `canvas.width`/`canvas.height` is not a call
on `ctx` and is not recorded. -/
def updateCanvasPreview (currentCanvas : Scene) : PreviewRun :=
  let rest := previewElements 0 currentCanvas.elements
  { calls := whiteFill currentCanvas ++ rest.calls, pending := rest.pending,
    raised := rest.raised }

/-- Whether an awaited load resolved. -/
def loadResolved : Except String Unit → Bool
  | .ok _ => true
  | .error _ => false

/-- The calls made by the image callbacks after `updateCanvasPreview` has
returned. `order` lists the loading images (by rank among them) in the order
their loads complete; `loads i` tells whether the image of element `i` loaded
(`onload` fires) or failed (`onerror` fires). -/
def deliver (loads : ℕ → Except String Unit) (pending : List (ℕ × ImageHandlers)) :
    List ℕ → List DrawOp
  | [] => []
  | k :: order =>
    match pending.get? k with
    | some (i, h) =>
      (if loadResolved (loads i) then h.onload else h.onerror) ++
        deliver loads pending order
    | none => deliver loads pending order

/-- All calls completed on the preview context for one snapshot: those of
`updateCanvasPreview`, then those of the image callbacks, which the browser
runs only after the function that registered them has returned. -/
def previewRender (loads : ℕ → Except String Unit) (order : List ℕ)
    (currentCanvas : Scene) : List DrawOp :=
  (updateCanvasPreview currentCanvas).calls ++
    deliver loads (updateCanvasPreview currentCanvas).pending order

/-! ## The export handler -/

/-- The libraries the export handler calls besides `loadImage`, as far as they
can throw: whether the canvas context rejects a negative radius;
`createCanvas(width, height)` with `getContext('2d')`; the steps made before
the response starts to stream (`new PDFDocument` and, after `doc.pipe(res)`,
the synchronous `canvas.toBuffer`); and the steps made while it streams (the
awaited `sharp` compression, `doc.image`, `doc.end`), which see the page size
and the painted canvas. -/
structure ExportLibs where
  strict : Bool
  createCanvas : JsNumber → JsNumber → Except String Unit
  startDocument : JsNumber → JsNumber → List DrawOp → Except String Unit
  finishDocument : JsNumber → JsNumber → List DrawOp → Except String Unit

/-- The document piped to the response: one page of size `[width, height]`
holding one image at `(0, 0)`, the canvas on which `raster` was drawn. -/
structure PdfDocument where
  pageWidth : JsNumber
  pageHeight : JsNumber
  raster : List DrawOp
  deriving DecidableEq, Repr

/-- Response of the export handler: the document (status 200, content type
`application/pdf`); `{ error }` with its status; or a response whose 200
`application/pdf` head was already sent when an error was raised, so that its
body is cut short and the `catch` block can no longer answer. -/
inductive ExportResponse where
  | pdf (document : PdfDocument)
  | error (status : ℕ) (error : String)
  | unfinished (error : String)
  deriving DecidableEq, Repr

/-- HTTP status of an export response. -/
def ExportResponse.status : ExportResponse → ℕ
  | .pdf _ => 200
  | .error status _ => status
  | .unfinished _ => 200

/-- Handler of `POST /api/canvas/export-pdf`: an error raised inside the `try`
block before the response streams is answered by the `catch` block with status
500; one raised later finds the head already sent. `canvasState` is only
read. -/
def exportPdf (libs : ExportLibs) (loads : ℕ → Except String Unit) (canvasState : Scene) :
    ExportResponse × Scene :=
  match libs.createCanvas canvasState.width canvasState.height with
  | .error message => (.error 500 message, canvasState)
  | .ok _ =>
    match exportRender libs.strict loads canvasState with
    | .error message => (.error 500 message, canvasState)
    | .ok raster =>
      match libs.startDocument canvasState.width canvasState.height raster with
      | .error message => (.error 500 message, canvasState)
      | .ok _ =>
        match libs.finishDocument canvasState.width canvasState.height raster with
        | .error message => (.unfinished message, canvasState)
        | .ok _ =>
          (.pdf { pageWidth := canvasState.width, pageHeight := canvasState.height,
                  raster := raster }, canvasState)

/-! ## Inputs used in the statements below -/

deriving instance DecidableEq for Except

/-- What the code ensures of the numeric fields of a stored shape: none is `0`
or `NaN`. -/
def Element.numericNonzero : Element → Prop
  | .rectangle _ _ _ width height _ _ strokeWidth =>
    width.truthy = true ∧ height.truthy = true ∧ strokeWidth.truthy = true
  | .circle _ _ _ radius _ _ strokeWidth => radius.truthy = true ∧ strokeWidth.truthy = true
  | _ => True

/-- An image library that rejects every upload (used where no file is sent). -/
def sharpRejects : Buffer → JsNumber → JsNumber → Except String String :=
  fun _ _ _ => .error "Input buffer contains unsupported image format"

/-- The ids given to elements by a list of responses, in order. -/
def assignedIds (rs : List Response) : List String :=
  (rs.filterMap Response.element).map Element.id

/-- Whether an element is an image. -/
def Element.isImage : Element → Bool
  | .image _ _ _ _ _ _ _ => true
  | _ => false

/-- A request body with no field set. -/
def emptyRectangleBody : RectangleBody :=
  { x := .undefined, y := .undefined, width := .undefined, height := .undefined,
    fillColor := .undefined, strokeColor := .undefined, strokeWidth := .undefined }

/-- A request body with no field set. -/
def emptyCircleBody : CircleBody :=
  { x := .undefined, y := .undefined, radius := .undefined,
    fillColor := .undefined, strokeColor := .undefined, strokeWidth := .undefined }

/-- Three add requests with their clock readings: a rectangle, a text and an
image by URL. -/
def threeAdds : List (ℕ × Request) :=
  [(1000, .addRectangle (some emptyRectangleBody)),
   (1001, .addText (some { x := .int 5, y := .int 5, text := .str "hi",
                           fontSize := .undefined, fontFamily := .undefined,
                           color := .undefined })),
   (1002, .addImage none (some { x := .undefined, y := .undefined, width := .undefined,
                                 height := .undefined,
                                 imageUrl := .str "http://example.org/a.png" }))]

/-- Base64 of a PNG file of one pixel. -/
def onePixelPng : String :=
  "iVBORw0KGgoAAAANSUhEUgAAAAEAAAABCAYAAAAfFcSJAAAADUlEQVR42mNkYPhfDwAChwGA60e6kgAAAABJRU5ErkJggg=="

/-- A 200 x 200 scene: an uploaded image at the origin, then a red rectangle
over the same box. -/
def imageThenRectangle : Scene :=
  { width := 200, height := 200,
    elements :=
      [.image "1000" 0 0 100 100 (.str onePixelPng) .undefined,
       .rectangle "1001" 0 0 100 100 (.str "#ff0000") (.str "#000000") 1] }

/-- A 200 x 200 scene whose only element is an image given by URL. -/
def urlImageOnly : Scene :=
  { width := 200, height := 200,
    elements :=
      [.image "1000" 10 20 100 50 .undefined (.str "http://unreachable.invalid/a.png")] }

/-- Libraries that do not throw; `strict` tells whether the canvas context
rejects a negative radius. -/
def libsSucceed (strict : Bool) : ExportLibs :=
  { strict := strict, createCanvas := fun _ _ => .ok (),
    startDocument := fun _ _ _ => .ok (), finishDocument := fun _ _ _ => .ok () }

/-- Every awaited load resolves. -/
def loadsResolve : ℕ → Except String Unit :=
  fun _ => .ok ()

/-- Every awaited load throws. -/
def loadsFail : ℕ → Except String Unit :=
  fun _ => .error "getaddrinfo ENOTFOUND"

/-- An image element given by a URL only. -/
def urlImage : Element :=
  .image "1000" 30 40 120 80 .undefined (.str "http://unreachable.invalid/b.png")

/-- The message of the `TypeError` thrown when an object has no way to a
primitive value. -/
def cannotConvert : String := "Cannot convert object to primitive value"

/-! ## Facts about the value layer -/

theorem stringToNumber_nil : stringToNumber [] = .fin 0 0 := by decide

theorem truthy_of_gtZero (n : JsNumber) (h : n.gtZero = true) : n.truthy = true := by
  cases n with
  | fin num exp =>
    simp only [JsNumber.gtZero, decide_eq_true_eq] at h
    simp only [JsNumber.truthy, decide_eq_true_eq]
    omega
  | nan => simp [JsNumber.gtZero] at h
  | posInf => rfl
  | negInf => rfl

theorem not_leZero_of_gtZero (n : JsNumber) (h : n.gtZero = true) : n.leZero = false := by
  cases n with
  | fin num exp =>
    simp only [JsNumber.gtZero, decide_eq_true_eq] at h
    simp only [JsNumber.leZero, decide_eq_false_iff_not]
    omega
  | nan => rfl
  | posInf => rfl
  | negInf => simp [JsNumber.gtZero] at h

theorem toNumber_of_gtZero (v : JsValue) (h : gtZero v = .ok true) :
    ∃ n, toNumber v = .ok n ∧ n.gtZero = true := by
  unfold gtZero at h
  cases hn : toNumber v with
  | error message => rw [hn] at h; simp at h
  | ok n =>
    rw [hn] at h
    simp only [Except.ok.injEq] at h
    exact ⟨n, rfl, h⟩

theorem toBoolean_of_gtZero (v : JsValue) (h : gtZero v = .ok true) : toBoolean v = true := by
  obtain ⟨n, hn, hpos⟩ := toNumber_of_gtZero v h
  cases v with
  | undefined =>
    simp only [toNumber, Except.ok.injEq] at hn
    subst hn; simp [JsNumber.gtZero] at hpos
  | null =>
    simp only [toNumber, Except.ok.injEq] at hn
    subst hn; simp [JsNumber.gtZero] at hpos
  | bool b =>
    cases b
    · simp only [toNumber, Except.ok.injEq] at hn
      subst hn; simp [JsNumber.gtZero] at hpos
    · rfl
  | num mant scale =>
    simp only [toNumber, Except.ok.injEq] at hn
    subst hn
    exact truthy_of_gtZero _ hpos
  | str s =>
    simp only [toBoolean, decide_eq_true_eq]
    intro hs
    subst hs
    simp only [toNumber, Except.ok.injEq] at hn
    subst hn
    simp [stringToNumber_nil, JsNumber.gtZero] at hpos
  | object prim => rfl
  | unconvertible message => rfl

theorem leZero_of_gtZero (v : JsValue) (h : gtZero v = .ok true) : leZero v = .ok false := by
  obtain ⟨n, hn, hpos⟩ := toNumber_of_gtZero v h
  simp [leZero, hn, not_leZero_of_gtZero n hpos]

theorem parseInt_of_gtZero (v : JsValue) (h : gtZero v = .ok true) :
    ∃ n, parseInt v = .ok n := by
  cases v with
  | unconvertible message => simp [gtZero, toNumber] at h
  | undefined => exact ⟨_, rfl⟩
  | null => exact ⟨_, rfl⟩
  | bool b => exact ⟨_, rfl⟩
  | num mant scale => exact ⟨_, rfl⟩
  | str s => exact ⟨_, rfl⟩
  | object prim => exact ⟨_, rfl⟩

theorem parseIntNumber_int (n : ℤ) (h : n.natAbs ≤ 2 ^ 53) :
    parseIntNumber (.fin n 0) = .fin n 0 := by
  by_cases h0 : n.natAbs = 0
  · have hn : n = 0 := by omega
    subst hn
    rfl
  · have hc : (0 : ℕ) = 0 ∧ n.natAbs ≤ 2 ^ 53 := ⟨rfl, h⟩
    show (if n.natAbs = 0 then JsNumber.fin 0 0
      else if (0 : ℕ) = 0 ∧ n.natAbs ≤ 2 ^ 53 then JsNumber.fin n 0 else _) = _
    rw [if_neg h0, if_pos hc]

theorem ofInt_of_le (n : ℤ) (h : n.natAbs ≤ 2 ^ 53) : JsNumber.ofInt n = .fin n 0 := by
  unfold JsNumber.ofInt
  rw [if_pos h]

theorem parseInt_int (n : ℤ) (h : n.natAbs ≤ 2 ^ 53) :
    parseInt (.int n) = .ok (.fin n 0) := by
  simp only [JsValue.int, parseInt, JsNumber.ofDecimal, if_true, ofInt_of_le n h,
    parseIntNumber_int n h]

theorem parseIntOr_int (n : ℤ) (d : JsNumber) (h : n.natAbs ≤ 2 ^ 53) (hn : n ≠ 0) :
    parseIntOr (.int n) d = .ok (.fin n 0) := by
  simp [parseIntOr, parseInt_int n h, JsNumber.truthy, hn]

theorem parseIntOr_int_zero (n : ℤ) (h : n.natAbs ≤ 2 ^ 53) :
    parseIntOr (.int n) 0 = .ok (.fin n 0) := by
  by_cases hn : n = 0
  · subst hn; rfl
  · exact parseIntOr_int n 0 h hn

theorem parseIntOr_truthy (v : JsValue) (d n : JsNumber) (hd : d.truthy = true)
    (h : parseIntOr v d = .ok n) : n.truthy = true := by
  unfold parseIntOr at h
  cases hp : parseInt v with
  | error message => rw [hp] at h; simp at h
  | ok m =>
    rw [hp] at h
    simp only [Except.ok.injEq] at h
    by_cases hm : m.truthy = true
    · rw [if_pos hm] at h; rw [← h]; exact hm
    · rw [if_neg hm] at h; rw [← h]; exact hd

/-! ## Scene store: init and clear -/

/-- C1, as stated, fails: a request body with width 1.5 and height 1.5 has both
values above zero and `init` answers 200, but the stored scene has width 1 and
height 1, while the width sent is the Number 3/2. -/
theorem init_truncates_fraction :
    gtZero (.num 15 1) = .ok true ∧
    (init initialState (some { width := .num 15 1, height := .num 15 1 })).1.status = 200 ∧
    (init initialState (some { width := .num 15 1, height := .num 15 1 })).2 =
      { width := 1, height := 1, elements := [] } ∧
    toNumber (.num 15 1) = .ok (.fin 3 1) := by
  decide

/-- C1, amended: for every prior store and every request body whose width and
height compare above zero, `init` answers 200 and leaves the store holding the
scene with width `parseInt(width)`, height `parseInt(height)` and no elements,
which is the scene carried in the response; when width (height) is a number
that is an integer of magnitude at most `2 ^ 53`, the stored width (height) is
exactly that integer. -/
theorem init_positive (canvasState : Scene) (w h : JsValue)
    (hw : gtZero w = .ok true) (hh : gtZero h = .ok true) :
    ∃ pw ph : JsNumber, parseInt w = .ok pw ∧ parseInt h = .ok ph ∧
      init canvasState (some { width := w, height := h }) =
        ({ status := 200,
           body := .success (some "Canvas initialized") none
             { width := pw, height := ph, elements := [] } },
         { width := pw, height := ph, elements := [] }) ∧
      (∀ (mant : ℤ) (scale : ℕ) (n : ℤ), w = .num mant scale →
        toNumber w = .ok (.fin n 0) → n.natAbs ≤ 2 ^ 53 → pw = .fin n 0) ∧
      (∀ (mant : ℤ) (scale : ℕ) (n : ℤ), h = .num mant scale →
        toNumber h = .ok (.fin n 0) → n.natAbs ≤ 2 ^ 53 → ph = .fin n 0) := by
  obtain ⟨pw, hpw⟩ := parseInt_of_gtZero w hw
  obtain ⟨ph, hph⟩ := parseInt_of_gtZero h hh
  refine ⟨pw, ph, hpw, hph, ?_, ?_, ?_⟩
  · simp [init, toBoolean_of_gtZero w hw, toBoolean_of_gtZero h hh,
      leZero_of_gtZero w hw, leZero_of_gtZero h hh, hpw, hph]
  · intro mant scale n hnum hto hle
    subst hnum
    simp only [toNumber, Except.ok.injEq] at hto
    simp only [parseInt, hto, parseIntNumber_int n hle, Except.ok.injEq] at hpw
    exact hpw.symm
  · intro mant scale n hnum hto hle
    subst hnum
    simp only [toNumber, Except.ok.injEq] at hto
    simp only [parseInt, hto, parseIntNumber_int n hle, Except.ok.injEq] at hph
    exact hph.symm

/-- Witness of `init_positive`: a 400 x 300 request on the initial store. -/
theorem init_positive_witness :
    ∃ pw ph : JsNumber, parseInt (.int 400) = .ok pw ∧ parseInt (.int 300) = .ok ph ∧
      init initialState (some { width := .int 400, height := .int 300 }) =
        ({ status := 200,
           body := .success (some "Canvas initialized") none
             { width := pw, height := ph, elements := [] } },
         { width := pw, height := ph, elements := [] }) ∧
      (∀ (mant : ℤ) (scale : ℕ) (n : ℤ), JsValue.int 400 = .num mant scale →
        toNumber (.int 400) = .ok (.fin n 0) → n.natAbs ≤ 2 ^ 53 → pw = .fin n 0) ∧
      (∀ (mant : ℤ) (scale : ℕ) (n : ℤ), JsValue.int 300 = .num mant scale →
        toNumber (.int 300) = .ok (.fin n 0) → n.natAbs ≤ 2 ^ 53 → ph = .fin n 0) :=
  init_positive initialState (.int 400) (.int 300) (by decide) (by decide)

/-- C2, as stated, fails: with width an object that cannot be converted to a
primitive (`{"toString":1}`) and height -5, the height is negative, yet the
comparison `width <= 0` throws and `init` answers 500, not 400. -/
theorem init_unconvertible_width :
    leZero (.int (-5)) = .ok true ∧
    init initialState
        (some { width := .unconvertible cannotConvert, height := .int (-5) }) =
      (serverError cannotConvert, initialState) ∧
    (serverError cannotConvert).status = 500 := by
  decide

/-- C2, amended: for every prior store and every request body in which width or
height is absent or compares `<= 0`, `init` fails and the store is the one
before the call; the failure is the invalid-dimension error (status 400),
except when width is an object that cannot be converted to a primitive and
height is truthy: then the comparison of width throws and the answer is 500. -/
theorem init_rejects (canvasState : Scene) (w h : JsValue)
    (hbad : (w = .undefined ∨ leZero w = .ok true) ∨ (h = .undefined ∨ leZero h = .ok true)) :
    (init canvasState (some { width := w, height := h })).2 = canvasState ∧
    (((∀ message, w ≠ .unconvertible message) ∨ toBoolean h = false) →
      init canvasState (some { width := w, height := h }) =
        ({ status := 400, body := .error "Valid width and height are required" },
         canvasState)) ∧
    (∀ message, w = .unconvertible message → toBoolean h = true →
      init canvasState (some { width := w, height := h }) =
        (serverError message, canvasState)) := by
  have key : ((∀ message, w ≠ .unconvertible message) ∨ toBoolean h = false) →
      init canvasState (some { width := w, height := h }) =
        ({ status := 400, body := .error "Valid width and height are required" },
         canvasState) := by
    intro hconv
    by_cases hfalsy : (!toBoolean w || !toBoolean h) = true
    · simp only [init, hfalsy, if_true]
    · simp only [init, hfalsy]
      simp only [Bool.or_eq_true, Bool.not_eq_true', not_or, Bool.not_eq_false] at hfalsy
      obtain ⟨htw, hth⟩ := hfalsy
      rcases hconv with hconv | hconv
      · rcases hbad with (hw | hw) | (hh | hh)
        · subst hw; simp [toBoolean] at htw
        · simp [hw]
        · subst hh; simp [toBoolean] at hth
        · cases hlw : leZero w with
          | error message =>
            exfalso
            cases w <;> simp [leZero, toNumber] at hlw
            exact hconv _ rfl
          | ok b => cases b <;> simp [hh]
      · rw [hconv] at hth; simp at hth
  have hmsg : ∀ message, w = .unconvertible message → toBoolean h = true →
      init canvasState (some { width := w, height := h }) =
        (serverError message, canvasState) := by
    intro message hw hth
    subst hw
    have h1 : toBoolean (.unconvertible message) = true := rfl
    simp [init, h1, hth, leZero, toNumber]
  refine ⟨?_, key, hmsg⟩
  by_cases hconv : (∀ message, w ≠ .unconvertible message) ∨ toBoolean h = false
  · rw [key hconv]
  · simp only [not_or, not_forall, not_not, Bool.not_eq_false] at hconv
    obtain ⟨⟨message, hw⟩, hth⟩ := hconv
    rw [hmsg message hw hth]

/-- Witness of `init_rejects`: width 0 on a store that holds an element. -/
theorem init_rejects_witness :
    (init { width := 800, height := 600,
            elements := [.circle "7" 0 0 50 (.str "#000000") (.str "#000000") 1] }
        (some { width := .int 0, height := .int 300 })).2 =
      { width := 800, height := 600,
        elements := [.circle "7" 0 0 50 (.str "#000000") (.str "#000000") 1] } ∧
    (((∀ message, JsValue.int 0 ≠ .unconvertible message) ∨
        toBoolean (.int 300) = false) →
      init { width := 800, height := 600,
             elements := [.circle "7" 0 0 50 (.str "#000000") (.str "#000000") 1] }
          (some { width := .int 0, height := .int 300 }) =
        ({ status := 400, body := .error "Valid width and height are required" },
         { width := 800, height := 600,
           elements := [.circle "7" 0 0 50 (.str "#000000") (.str "#000000") 1] })) ∧
    (∀ message, JsValue.int 0 = .unconvertible message → toBoolean (.int 300) = true →
      init { width := 800, height := 600,
             elements := [.circle "7" 0 0 50 (.str "#000000") (.str "#000000") 1] }
          (some { width := .int 0, height := .int 300 }) =
        (serverError message,
         { width := 800, height := 600,
           elements := [.circle "7" 0 0 50 (.str "#000000") (.str "#000000") 1] })) :=
  init_rejects _ (.int 0) (.int 300) (Or.inl (Or.inr (by decide)))

/-- C3: for every store, `clear` leaves no elements, keeps width and height, and
answers 200 with that scene. -/
theorem clear_empties (canvasState : Scene) :
    clear canvasState =
      ({ status := 200,
         body := .success none none
           { width := canvasState.width, height := canvasState.height, elements := [] } },
       { width := canvasState.width, height := canvasState.height, elements := [] }) :=
  rfl

/-! ## Adds: one element appended -/

theorem pushOrFail_cases (canvasState : Scene) (built : Except String Element) :
    (∃ e, built = .ok e ∧ pushOrFail canvasState built = pushElement canvasState e) ∨
    (∃ message, pushOrFail canvasState built = (serverError message, canvasState)) := by
  cases built with
  | ok e => exact Or.inl ⟨e, rfl, rfl⟩
  | error message => exact Or.inr ⟨message, rfl⟩

/-- Every add handler either pushes one element and answers 200 with it, or
answers 400 or 500 and leaves the store as it was. -/
theorem handle_add_cases (sharp : Buffer → JsNumber → JsNumber → Except String String)
    (now : ℕ) (canvasState : Scene) (req : Request) (hadd : req.isAdd = true) :
    (∃ e : Element, handle sharp now canvasState req = pushElement canvasState e) ∨
    (∃ (status : ℕ) (message : String), (status = 400 ∨ status = 500) ∧
      handle sharp now canvasState req =
        ({ status := status, body := .error message }, canvasState)) := by
  have fail500 : ∀ message : String,
      ∃ (status : ℕ) (m : String), (status = 400 ∨ status = 500) ∧
        (serverError message, canvasState) =
          (({ status := status, body := .error m } : Response), canvasState) :=
    fun message => ⟨500, message, Or.inr rfl, rfl⟩
  have viaPush : ∀ built : Except String Element,
      (∃ e : Element, pushOrFail canvasState built = pushElement canvasState e) ∨
      (∃ (status : ℕ) (message : String), (status = 400 ∨ status = 500) ∧
        pushOrFail canvasState built =
          ({ status := status, body := .error message }, canvasState)) := by
    intro built
    rcases pushOrFail_cases canvasState built with ⟨e, -, he⟩ | ⟨message, hm⟩
    · exact Or.inl ⟨e, he⟩
    · exact Or.inr ⟨500, message, Or.inr rfl, hm⟩
  cases req with
  | init body => simp [Request.isAdd] at hadd
  | getState => simp [Request.isAdd] at hadd
  | clear => simp [Request.isAdd] at hadd
  | addRectangle body =>
    cases body with
    | none => exact Or.inr (fail500 _)
    | some b => exact viaPush _
  | addCircle body =>
    cases body with
    | none => exact Or.inr (fail500 _)
    | some b => exact viaPush _
  | addText body =>
    cases body with
    | none => exact Or.inr (fail500 _)
    | some b =>
      simp only [handle, addText]
      split
      · exact Or.inr ⟨400, _, Or.inl rfl, rfl⟩
      · exact viaPush _
  | addImage file body =>
    cases body with
    | none => exact Or.inr (fail500 _)
    | some b =>
      simp only [handle, addImage]
      cases file with
      | some buf => exact viaPush _
      | none =>
        simp only
        split
        · exact viaPush _
        · exact Or.inr ⟨400, _, Or.inl rfl, rfl⟩

theorem handle_add_ok (sharp : Buffer → JsNumber → JsNumber → Except String String)
    (now : ℕ) (canvasState : Scene) (req : Request) (hadd : req.isAdd = true)
    (hok : (handle sharp now canvasState req).1.status = 200) :
    ∃ e : Element, handle sharp now canvasState req = pushElement canvasState e := by
  rcases handle_add_cases sharp now canvasState req hadd with h | ⟨status, message, hs, h⟩
  · exact h
  · rw [h] at hok
    simp only at hok
    omega

/-- C4: for every store and every sequence of add requests that all succeed
(status 200), width and height are unchanged and the elements list afterwards
is the list before followed by the elements carried in the responses, one per
call and in call order; a single successful add appends exactly one element at
the end, and N successful adds on an empty scene leave exactly N elements. -/
theorem adds_append (sharp : Buffer → JsNumber → JsNumber → Except String String)
    (canvasState : Scene) (calls : List (ℕ × Request))
    (hadd : ∀ c ∈ calls, c.2.isAdd = true)
    (hok : ∀ r ∈ responses sharp canvasState calls, r.status = 200) :
    (run sharp canvasState calls).width = canvasState.width ∧
    (run sharp canvasState calls).height = canvasState.height ∧
    (run sharp canvasState calls).elements =
      canvasState.elements ++
        (responses sharp canvasState calls).filterMap Response.element ∧
    ((responses sharp canvasState calls).filterMap Response.element).length =
      calls.length := by
  induction calls generalizing canvasState with
  | nil => simp [run, responses]
  | cons c rest ih =>
    obtain ⟨now, req⟩ := c
    have h1 : (handle sharp now canvasState req).1.status = 200 :=
      hok _ (by simp [responses])
    obtain ⟨e, he⟩ := handle_add_ok sharp now canvasState req
      (hadd (now, req) (by simp)) h1
    have ih' := ih (handle sharp now canvasState req).2
      (fun c hc => hadd c (List.mem_cons_of_mem _ hc))
      (fun r hr => hok r (by simp [responses, hr]))
    simp only [run, responses]
    rw [he] at ih' ⊢
    simp only [pushElement] at ih' ⊢
    obtain ⟨hw, hh, hel, hlen⟩ := ih'
    refine ⟨hw, hh, ?_, ?_⟩
    · rw [hel]; simp [Response.element]
    · simp [Response.element, hlen]

/-- Witness of `adds_append`: a rectangle, then a text, then an image by URL, on
the initial store. -/
theorem adds_append_witness :
    (run sharpRejects initialState threeAdds).width = initialState.width ∧
    (run sharpRejects initialState threeAdds).height = initialState.height ∧
    (run sharpRejects initialState threeAdds).elements =
      initialState.elements ++
        (responses sharpRejects initialState threeAdds).filterMap Response.element ∧
    ((responses sharpRejects initialState threeAdds).filterMap Response.element).length =
      threeAdds.length :=
  adds_append sharpRejects initialState threeAdds (by decide) (by decide)

/-! ## Adds: identities, missing fields, numeric fields -/

/-- C5 at its failing input: two adds served at the same clock reading 1000
(`Date.now()` counts milliseconds) both get the id `"1000"`, so the second id is
not greater than the first and the scene holds two elements with one id. -/
theorem same_clock_same_id :
    assignedIds (responses sharpRejects initialState
      [(1000, .addRectangle (some emptyRectangleBody)),
       (1000, .addCircle (some emptyCircleBody))]) = ["1000", "1000"] ∧
    (run sharpRejects initialState
      [(1000, .addRectangle (some emptyRectangleBody)),
       (1000, .addCircle (some emptyCircleBody))]).elements.map Element.id =
        ["1000", "1000"] := by
  decide

/-- C6: for every store, `add-text` whose text is the empty string or absent
answers 400 with its missing-field error, and `add-image` with no uploaded file
and an absent (or empty) imageUrl answers 400 with its missing-field error;
the store is the one before the call. -/
theorem add_missing_field (sharp : Buffer → JsNumber → JsNumber → Except String String)
    (now : ℕ) (canvasState : Scene) (tb : TextBody) (ib : ImageBody)
    (ht : tb.text = .str "" ∨ tb.text = .undefined)
    (hi : ib.imageUrl = .undefined ∨ ib.imageUrl = .str "") :
    addText now canvasState (some tb) =
      ({ status := 400, body := .error "Text content is required" }, canvasState) ∧
    addImage sharp now canvasState none (some ib) =
      ({ status := 400, body := .error "Image file or URL is required" }, canvasState) := by
  constructor
  · rcases ht with ht | ht <;> simp [addText, ht, toBoolean]
  · rcases hi with hi | hi <;> simp [addImage, hi, toBoolean]

/-- Witness of `add_missing_field`: `{text: ""}` and `{}` on a store holding two
elements. -/
theorem add_missing_field_witness :
    addText 1000 imageThenRectangle
        (some { x := .undefined, y := .undefined, text := .str "", fontSize := .undefined,
                fontFamily := .undefined, color := .undefined }) =
      ({ status := 400, body := .error "Text content is required" },
        imageThenRectangle) ∧
    addImage sharpRejects 1000 imageThenRectangle none
        (some { x := .undefined, y := .undefined, width := .undefined,
                height := .undefined, imageUrl := .undefined }) =
      ({ status := 400, body := .error "Image file or URL is required" },
        imageThenRectangle) :=
  add_missing_field sharpRejects 1000 imageThenRectangle _ _ (Or.inl rfl) (Or.inl rfl)

/-- C7, as stated, fails: `add-rectangle` with width -5, height -5 and
strokeWidth -1 answers 200 and appends a rectangle with exactly these values. -/
theorem addRectangle_accepts_negative :
    (addRectangle 1000 initialState
        (some { x := .int 0, y := .int 0, width := .int (-5), height := .int (-5),
                fillColor := .undefined, strokeColor := .undefined,
                strokeWidth := .int (-1) })).1.status = 200 ∧
    (addRectangle 1000 initialState
        (some { x := .int 0, y := .int 0, width := .int (-5), height := .int (-5),
                fillColor := .undefined, strokeColor := .undefined,
                strokeWidth := .int (-1) })).2.elements =
      [.rectangle "1000" 0 0 (-5) (-5) (.str "#000000") (.str "#000000") (-1)] := by
  decide

theorem rectangleElement_nonzero (now : ℕ) (b : RectangleBody) (e : Element)
    (he : rectangleElement now b = .ok e) : e.numericNonzero := by
  unfold rectangleElement at he
  cases hx : parseIntOr b.x 0 <;> rw [hx] at he <;> try (simp at he)
  cases hy : parseIntOr b.y 0 <;> rw [hy] at he <;> try (simp at he)
  cases hw : parseIntOr b.width 100 <;> rw [hw] at he <;> try (simp at he)
  cases hh : parseIntOr b.height 100 <;> rw [hh] at he <;> try (simp at he)
  cases hs : parseIntOr b.strokeWidth 1 <;> rw [hs] at he <;> try (simp at he)
  subst he
  exact ⟨parseIntOr_truthy _ _ _ (by decide) hw, parseIntOr_truthy _ _ _ (by decide) hh,
    parseIntOr_truthy _ _ _ (by decide) hs⟩

theorem circleElement_nonzero (now : ℕ) (b : CircleBody) (e : Element)
    (he : circleElement now b = .ok e) : e.numericNonzero := by
  unfold circleElement at he
  cases hx : parseIntOr b.x 0 <;> rw [hx] at he <;> try (simp at he)
  cases hy : parseIntOr b.y 0 <;> rw [hy] at he <;> try (simp at he)
  cases hr : parseIntOr b.radius 50 <;> rw [hr] at he <;> try (simp at he)
  cases hs : parseIntOr b.strokeWidth 1 <;> rw [hs] at he <;> try (simp at he)
  subst he
  exact ⟨parseIntOr_truthy _ _ _ (by decide) hr, parseIntOr_truthy _ _ _ (by decide) hs⟩

theorem textElement_nonzero (now : ℕ) (b : TextBody) (e : Element)
    (he : textElement now b = .ok e) : e.numericNonzero := by
  unfold textElement at he
  cases hx : parseIntOr b.x 0 <;> rw [hx] at he <;> try (simp at he)
  cases hy : parseIntOr b.y 0 <;> rw [hy] at he <;> try (simp at he)
  cases hf : parseIntOr b.fontSize 16 <;> rw [hf] at he <;> try (simp at he)
  subst he
  trivial

theorem imageElement_nonzero (now : ℕ) (b : ImageBody) (d u : JsValue) (e : Element)
    (he : imageElement now b d u = .ok e) : e.numericNonzero := by
  unfold imageElement at he
  cases hx : parseIntOr b.x 0 <;> rw [hx] at he <;> try (simp at he)
  cases hy : parseIntOr b.y 0 <;> rw [hy] at he <;> try (simp at he)
  cases hw : parseIntOr b.width 100 <;> rw [hw] at he <;> try (simp at he)
  cases hh : parseIntOr b.height 100 <;> rw [hh] at he <;> try (simp at he)
  subst he
  trivial

theorem uploadedImageElement_nonzero
    (sharp : Buffer → JsNumber → JsNumber → Except String String) (now : ℕ)
    (buf : Buffer) (b : ImageBody) (e : Element)
    (he : uploadedImageElement sharp now buf b = .ok e) : e.numericNonzero := by
  unfold uploadedImageElement at he
  cases hw : parseIntOr b.width 100 with
  | error m => rw [hw] at he; simp at he
  | ok w =>
    cases hh : parseIntOr b.height 100 with
    | error m => rw [hw, hh] at he; simp at he
    | ok h =>
      cases hs : sharp buf w h with
      | error m => rw [hw, hh] at he; simp [hs] at he
      | ok p =>
        rw [hw, hh] at he
        simp only [hs] at he
        exact imageElement_nonzero now b _ _ e he

/-- Every handler leaves the elements list empty, unchanged, or longer by one
element, whose numeric fields are neither `0` nor `NaN`. -/
theorem handle_elements_cases (sharp : Buffer → JsNumber → JsNumber → Except String String)
    (now : ℕ) (canvasState : Scene) (req : Request) :
    (handle sharp now canvasState req).2.elements = [] ∨
    (handle sharp now canvasState req).2.elements = canvasState.elements ∨
    ∃ e : Element, e.numericNonzero ∧
      (handle sharp now canvasState req).2.elements = canvasState.elements ++ [e] := by
  have viaPush : ∀ built : Except String Element,
      (∀ e, built = .ok e → e.numericNonzero) →
      (pushOrFail canvasState built).2.elements = [] ∨
      (pushOrFail canvasState built).2.elements = canvasState.elements ∨
      ∃ e : Element, e.numericNonzero ∧
        (pushOrFail canvasState built).2.elements = canvasState.elements ++ [e] := by
    intro built hb
    cases built with
    | ok e => exact Or.inr (Or.inr ⟨e, hb e rfl, rfl⟩)
    | error message => exact Or.inr (Or.inl rfl)
  cases req with
  | init body =>
    cases body with
    | none => exact Or.inr (Or.inl rfl)
    | some b =>
      simp only [handle, init]
      split
      · exact Or.inr (Or.inl rfl)
      · split
        · exact Or.inr (Or.inl rfl)
        · exact Or.inr (Or.inl rfl)
        · split
          · exact Or.inr (Or.inl rfl)
          · exact Or.inr (Or.inl rfl)
          · split
            · exact Or.inr (Or.inl rfl)
            · split
              · exact Or.inr (Or.inl rfl)
              · exact Or.inl rfl
  | getState => exact Or.inr (Or.inl rfl)
  | clear => exact Or.inl rfl
  | addRectangle body =>
    cases body with
    | none => exact Or.inr (Or.inl rfl)
    | some b => exact viaPush _ (rectangleElement_nonzero now b)
  | addCircle body =>
    cases body with
    | none => exact Or.inr (Or.inl rfl)
    | some b => exact viaPush _ (circleElement_nonzero now b)
  | addText body =>
    cases body with
    | none => exact Or.inr (Or.inl rfl)
    | some b =>
      simp only [handle, addText]
      split
      · exact Or.inr (Or.inl rfl)
      · exact viaPush _ (textElement_nonzero now b)
  | addImage file body =>
    cases body with
    | none => exact Or.inr (Or.inl rfl)
    | some b =>
      simp only [handle, addImage]
      cases file with
      | some buf => exact viaPush _ (uploadedImageElement_nonzero sharp now buf b)
      | none =>
        simp only
        split
        · exact viaPush _ (imageElement_nonzero now b _ _)
        · exact Or.inr (Or.inl rfl)

/-- C7, amended: `add-rectangle` and `add-circle` do not range-check their
numeric fields. A request whose x, y, width, height, radius and strokeWidth are
integers of magnitude at most `2 ^ 53`, with width, height, radius and
strokeWidth different from 0 and of either sign, answers 200 and appends one
element holding exactly these values, negative ones included; and in every
scene reachable from the initial store every rectangle has width, height and
strokeWidth different from 0 (and not `NaN`) and every circle has radius and
strokeWidth different from 0 (and not `NaN`). -/
theorem shapes_not_validated (sharp : Buffer → JsNumber → JsNumber → Except String String)
    (now : ℕ) (canvasState : Scene) (x y width height radius strokeWidth : ℤ)
    (fillColor strokeColor : JsValue) (calls : List (ℕ × Request))
    (hx : x.natAbs ≤ 2 ^ 53) (hy : y.natAbs ≤ 2 ^ 53)
    (hw : width.natAbs ≤ 2 ^ 53) (hw0 : width ≠ 0)
    (hh : height.natAbs ≤ 2 ^ 53) (hh0 : height ≠ 0)
    (hr : radius.natAbs ≤ 2 ^ 53) (hr0 : radius ≠ 0)
    (hs : strokeWidth.natAbs ≤ 2 ^ 53) (hs0 : strokeWidth ≠ 0) :
    addRectangle now canvasState
        (some { x := .int x, y := .int y, width := .int width, height := .int height,
                fillColor := fillColor, strokeColor := strokeColor,
                strokeWidth := .int strokeWidth }) =
      pushElement canvasState
        (.rectangle (toString now) (.fin x 0) (.fin y 0) (.fin width 0) (.fin height 0)
          (orDefault fillColor (.str "#000000")) (orDefault strokeColor (.str "#000000"))
          (.fin strokeWidth 0)) ∧
    addCircle now canvasState
        (some { x := .int x, y := .int y, radius := .int radius,
                fillColor := fillColor, strokeColor := strokeColor,
                strokeWidth := .int strokeWidth }) =
      pushElement canvasState
        (.circle (toString now) (.fin x 0) (.fin y 0) (.fin radius 0)
          (orDefault fillColor (.str "#000000")) (orDefault strokeColor (.str "#000000"))
          (.fin strokeWidth 0)) ∧
    ∀ e ∈ (run sharp initialState calls).elements, e.numericNonzero := by
  refine ⟨?_, ?_, ?_⟩
  · simp only [addRectangle, rectangleElement, parseIntOr_int_zero x hx,
      parseIntOr_int_zero y hy, parseIntOr_int width 100 hw hw0,
      parseIntOr_int height 100 hh hh0, parseIntOr_int strokeWidth 1 hs hs0, pushOrFail]
  · simp only [addCircle, circleElement, parseIntOr_int_zero x hx,
      parseIntOr_int_zero y hy, parseIntOr_int radius 50 hr hr0,
      parseIntOr_int strokeWidth 1 hs hs0, pushOrFail]
  · suffices h : ∀ (st : Scene), (∀ e ∈ st.elements, e.numericNonzero) →
        ∀ e ∈ (run sharp st calls).elements, e.numericNonzero from
      h initialState (by simp [initialState])
    induction calls with
    | nil => intro st hst; simpa [run] using hst
    | cons c rest ih =>
      obtain ⟨t, req⟩ := c
      intro st hst
      simp only [run]
      apply ih
      intro e he
      rcases handle_elements_cases sharp t st req with h | h | ⟨e', hok, h⟩
      · rw [h] at he; simp at he
      · rw [h] at he; exact hst e he
      · rw [h, List.mem_append, List.mem_singleton] at he
        rcases he with he | he
        · exact hst e he
        · rw [he]; exact hok

/-- Witness of `shapes_not_validated`: a rectangle and a circle whose sizes are
all negative. -/
theorem shapes_not_validated_witness :
    addRectangle 1000 initialState
        (some { x := .int 10, y := .int 20, width := .int (-5), height := .int (-7),
                fillColor := .undefined, strokeColor := .undefined,
                strokeWidth := .int (-1) }) =
      pushElement initialState
        (.rectangle (toString 1000) (.fin 10 0) (.fin 20 0) (.fin (-5) 0) (.fin (-7) 0)
          (orDefault .undefined (.str "#000000")) (orDefault .undefined (.str "#000000"))
          (.fin (-1) 0)) ∧
    addCircle 1000 initialState
        (some { x := .int 10, y := .int 20, radius := .int (-50),
                fillColor := .undefined, strokeColor := .undefined,
                strokeWidth := .int (-1) }) =
      pushElement initialState
        (.circle (toString 1000) (.fin 10 0) (.fin 20 0) (.fin (-50) 0)
          (orDefault .undefined (.str "#000000")) (orDefault .undefined (.str "#000000"))
          (.fin (-1) 0)) ∧
    ∀ e ∈ (run sharpRejects initialState threeAdds).elements, e.numericNonzero :=
  shapes_not_validated sharpRejects 1000 initialState 10 20 (-5) (-7) (-50) (-1)
    .undefined .undefined threeAdds (by decide) (by decide) (by decide) (by decide)
    (by decide) (by decide) (by decide) (by decide) (by decide) (by decide)

/-! ## Renderers -/

theorem add_int (a b : ℤ) (h : (a + b).natAbs ≤ 2 ^ 53) :
    (JsNumber.fin a 0 + JsNumber.fin b 0 : JsNumber) = JsNumber.fin (a + b) 0 := by
  show JsNumber.add (JsNumber.fin a 0) (JsNumber.fin b 0) = _
  simp only [JsNumber.add, and_self, if_true]
  exact ofInt_of_le (a + b) h

theorem attempt_whiteFill (strict : Bool) (scene : Scene) :
    attempt strict (whiteFill scene) = .ok (whiteFill scene) := rfl

theorem attempt_lenient (ops : List DrawOp) : attempt false ops = .ok ops := by
  have h : ∀ ops : List DrawOp, perform false ops = (ops, none) := by
    intro ops
    induction ops with
    | nil => rfl
    | cons op rest ih =>
      have hr : rejects false op = none := by
        cases op <;> simp [rejects]
      simp [perform, hr, ih]
  simp [attempt, h]

/-- A context that accepts a negative radius never makes `drawElement` raise. -/
theorem drawElement_lenient (load : Except String Unit) (e : Element) :
    ∃ calls, drawElement false load e = .ok calls := by
  cases e with
  | rectangle id x y w h fc sc sw => exact ⟨_, by simp only [drawElement, attempt_lenient]; rfl⟩
  | circle id x y r fc sc sw => exact ⟨_, by simp only [drawElement, attempt_lenient]; rfl⟩
  | text id x y t fs ff c => exact ⟨_, by simp only [drawElement, attempt_lenient]; rfl⟩
  | image id x y w h d u =>
    cases load <;> cases hd : toBoolean d <;> cases hu : toBoolean u <;>
      simp [drawElement, hd, hu, attempt_lenient]

theorem drawElements_lenient (loads : ℕ → Except String Unit) (i : ℕ) (es : List Element) :
    ∃ calls, drawElements false loads i es = .ok calls := by
  induction es generalizing i with
  | nil => exact ⟨[], rfl⟩
  | cons e es ih =>
    obtain ⟨a, ha⟩ := drawElement_lenient (loads i) e
    obtain ⟨b, hb⟩ := ih (i + 1)
    exact ⟨a ++ b, by simp [drawElements, ha, hb]⟩

theorem drawElements_append_ok (strict : Bool) (loads : ℕ → Except String Unit) (i : ℕ)
    (es fs : List Element) (a b : List DrawOp)
    (ha : drawElements strict loads i es = .ok a)
    (hb : drawElements strict loads (i + es.length) fs = .ok b) :
    drawElements strict loads i (es ++ fs) = .ok (a ++ b) := by
  induction es generalizing i a with
  | nil =>
    simp only [drawElements, Except.ok.injEq] at ha
    subst ha
    simpa using hb
  | cons e es ih =>
    simp only [drawElements] at ha
    cases he : drawElement strict (loads i) e with
    | error m => rw [he] at ha; simp at ha
    | ok c =>
      rw [he] at ha
      cases hr : drawElements strict loads (i + 1) es with
      | error m => rw [hr] at ha; simp at ha
      | ok r =>
        rw [hr] at ha
        simp only [Except.ok.injEq] at ha
        subst ha
        have hb' : drawElements strict loads (i + 1 + es.length) fs = .ok b := by
          rw [show i + 1 + es.length = i + (e :: es).length by simp; omega]
          exact hb
        have := ih (i + 1) r hr hb'
        simp [drawElements, he, this]

theorem shape_step (loads : ℕ → Except String Unit) (i : ℕ) (e : Element)
    (es : List Element) (ops : List DrawOp)
    (hs : ∀ load, drawElement true load e = attempt true ops)
    (hp : drawElementOnPreview e = previewCalls ops)
    (ih : drawElements true loads (i + 1) es =
        (match (previewElements (i + 1) es).raised with
          | none => .ok (previewElements (i + 1) es).calls
          | some message => .error message) ∧
      (previewElements (i + 1) es).pending = []) :
    drawElements true loads i (e :: es) =
        (match (previewElements i (e :: es)).raised with
          | none => .ok (previewElements i (e :: es)).calls
          | some message => .error message) ∧
      (previewElements i (e :: es)).pending = [] := by
  obtain ⟨ih1, ih2⟩ := ih
  simp only [drawElements, previewElements, hs, hp, previewCalls, attempt]
  cases hr : (perform true ops).2 with
  | some message => simp
  | none =>
    simp only [ih1, ih2]
    cases hrest : (previewElements (i + 1) es).raised with
    | some message => simp
    | none => simp

theorem previewElements_no_image (loads : ℕ → Except String Unit) (i : ℕ)
    (es : List Element) (hes : ∀ e ∈ es, e.isImage = false) :
    drawElements true loads i es =
        (match (previewElements i es).raised with
          | none => .ok (previewElements i es).calls
          | some message => .error message) ∧
      (previewElements i es).pending = [] := by
  induction es generalizing i with
  | nil => exact ⟨rfl, rfl⟩
  | cons e es ih =>
    have hrest := ih (i + 1) (fun f hf => hes f (List.mem_cons_of_mem _ hf))
    have he := hes e (List.mem_cons_self _ _)
    cases e with
    | image id x y w h d u => simp [Element.isImage] at he
    | rectangle id x y w h fc sc sw =>
      exact shape_step loads i _ es
        [.setFillStyle fc, .setStrokeStyle sc, .setLineWidth sw,
          .fillRect x y w h, .strokeRect x y w h]
        (fun _ => rfl) rfl hrest
    | circle id x y r fc sc sw =>
      exact shape_step loads i _ es
        [.beginPath, .arc (x + r) (y + r) r .zero .twoPi, .setFillStyle fc, .fill,
          .setStrokeStyle sc, .setLineWidth sw, .stroke]
        (fun _ => rfl) rfl hrest
    | text id x y t fs ff c =>
      exact shape_step loads i _ es
        [.setFillStyle c, .setFont (.sized fs ff), .fillText t x (y + fs)]
        (fun _ => rfl) rfl hrest

theorem deliver_nil (loads : ℕ → Except String Unit) (order : List ℕ) :
    deliver loads [] order = [] := by
  induction order with
  | nil => rfl
  | cons k ks ih => simp [deliver, ih]

/-- On a scene without image elements, a server context that rejects what a
browser rejects makes the export complete exactly the calls of the preview when
the preview does not raise, and raise the same error when it does; no image
callback is left. -/
theorem renderers_agree_without_images (loads : ℕ → Except String Unit) (order : List ℕ)
    (scene : Scene) (hes : ∀ e ∈ scene.elements, e.isImage = false) :
    exportRender true loads scene =
      (match (updateCanvasPreview scene).raised with
        | none => .ok (previewRender loads order scene)
        | some message => .error message) := by
  obtain ⟨h1, h2⟩ := previewElements_no_image loads 0 scene.elements hes
  simp only [exportRender, attempt_whiteFill, h1, previewRender, updateCanvasPreview, h2,
    deliver_nil, List.append_nil]
  cases (previewElements 0 scene.elements).raised <;> rfl

/-- C8, as stated, fails at two circles that `add-circle` stores. For the body
`{x: 9007199254740992, y: 0, radius: 1}` the stored circle has `x = 2 ^ 53`, and
both renderers call `arc` with centre abscissa `2 ^ 53`, which is not
`x + radius = 2 ^ 53 + 1` (the sum is a Number and rounds). For the body
`{x: 0, y: 0, radius: -50}` the stored circle has radius -50, and in the preview
`arc` throws: the only call completed is `beginPath`. -/
theorem circle_centre_not_exact :
    (addCircle 1000 initialState
        (some { x := .int 9007199254740992, y := .int 0, radius := .int 1,
                fillColor := .undefined, strokeColor := .undefined,
                strokeWidth := .undefined })).2.elements =
      [.circle "1000" (.fin 9007199254740992 0) 0 1
        (.str "#000000") (.str "#000000") 1] ∧
    drawElement true (.ok ())
        (.circle "1000" (.fin 9007199254740992 0) 0 1
          (.str "#000000") (.str "#000000") 1) =
      .ok [.beginPath, .arc (.fin 9007199254740992 0) 1 1 .zero .twoPi,
        .setFillStyle (.str "#000000"), .fill, .setStrokeStyle (.str "#000000"),
        .setLineWidth 1, .stroke] ∧
    drawElement false (.ok ())
        (.circle "1000" (.fin 9007199254740992 0) 0 1
          (.str "#000000") (.str "#000000") 1) =
      .ok [.beginPath, .arc (.fin 9007199254740992 0) 1 1 .zero .twoPi,
        .setFillStyle (.str "#000000"), .fill, .setStrokeStyle (.str "#000000"),
        .setLineWidth 1, .stroke] ∧
    drawElementOnPreview
        (.circle "1000" (.fin 9007199254740992 0) 0 1
          (.str "#000000") (.str "#000000") 1) =
      { calls := [.beginPath, .arc (.fin 9007199254740992 0) 1 1 .zero .twoPi,
          .setFillStyle (.str "#000000"), .fill, .setStrokeStyle (.str "#000000"),
          .setLineWidth 1, .stroke],
        handlers := none, raised := none } ∧
    (9007199254740992 : ℤ) + 1 ≠ 9007199254740992 ∧
    (addCircle 1000 initialState
        (some { x := .int 0, y := .int 0, radius := .int (-50),
                fillColor := .undefined, strokeColor := .undefined,
                strokeWidth := .undefined })).2.elements =
      [.circle "1000" 0 0 (-50) (.str "#000000") (.str "#000000") 1] ∧
    drawElementOnPreview
        (.circle "1000" 0 0 (-50) (.str "#000000") (.str "#000000") 1) =
      { calls := [.beginPath], handlers := none,
        raised := some "IndexSizeError: The radius provided is negative." } := by
  decide

/-- C8, amended: for every circle element whose position `(x, y)` and radius
`r` are integers of magnitude at most `2 ^ 53` with `r ≥ 0` and with `x + r` and
`y + r` of magnitude at most `2 ^ 53`, `drawElement` and `drawElementOnPreview`
complete the same calls, among them one `arc` of radius `r` centred at exactly
`(x + r, y + r)` from angle `0` to `2 * pi`, and neither raises. -/
theorem circle_centre (strict : Bool) (load : Except String Unit) (id : String)
    (x y radius : ℤ) (fillColor strokeColor : JsValue) (strokeWidth : JsNumber)
    (_hx : x.natAbs ≤ 2 ^ 53) (_hy : y.natAbs ≤ 2 ^ 53) (_hr : radius.natAbs ≤ 2 ^ 53)
    (hpos : 0 ≤ radius)
    (hcx : (x + radius).natAbs ≤ 2 ^ 53) (hcy : (y + radius).natAbs ≤ 2 ^ 53) :
    drawElement strict load
        (.circle id (.fin x 0) (.fin y 0) (.fin radius 0) fillColor strokeColor
          strokeWidth) =
      .ok [.beginPath, .arc (.fin (x + radius) 0) (.fin (y + radius) 0) (.fin radius 0)
          .zero .twoPi,
        .setFillStyle fillColor, .fill, .setStrokeStyle strokeColor,
        .setLineWidth strokeWidth, .stroke] ∧
    drawElementOnPreview
        (.circle id (.fin x 0) (.fin y 0) (.fin radius 0) fillColor strokeColor
          strokeWidth) =
      { calls := [.beginPath,
          .arc (.fin (x + radius) 0) (.fin (y + radius) 0) (.fin radius 0) .zero .twoPi,
          .setFillStyle fillColor, .fill, .setStrokeStyle strokeColor,
          .setLineWidth strokeWidth, .stroke],
        handlers := none, raised := none } := by
  have hneg : (JsNumber.fin radius 0).isNegative = false := by
    simp only [JsNumber.isNegative, decide_eq_false_iff_not]
    omega
  constructor
  · simp only [drawElement, add_int x radius hcx, add_int y radius hcy, attempt, perform,
      rejects, hneg, Bool.and_false]
    simp
  · simp only [drawElementOnPreview, previewCalls, add_int x radius hcx,
      add_int y radius hcy, perform, rejects, hneg, Bool.and_false]
    simp

/-- Witness of `circle_centre`: the circle at `x = 0`, `y = 0` with radius 50 is
drawn by an arc centred at `(50, 50)`. -/
theorem circle_centre_witness :
    drawElement true (.ok ())
        (.circle "1000" (.fin 0 0) (.fin 0 0) (.fin 50 0) (.str "#00ff00")
          (.str "#000000") 2) =
      .ok [.beginPath, .arc (.fin (0 + 50) 0) (.fin (0 + 50) 0) (.fin 50 0) .zero .twoPi,
        .setFillStyle (.str "#00ff00"), .fill, .setStrokeStyle (.str "#000000"),
        .setLineWidth 2, .stroke] ∧
    drawElementOnPreview
        (.circle "1000" (.fin 0 0) (.fin 0 0) (.fin 50 0) (.str "#00ff00")
          (.str "#000000") 2) =
      { calls := [.beginPath,
          .arc (.fin (0 + 50) 0) (.fin (0 + 50) 0) (.fin 50 0) .zero .twoPi,
          .setFillStyle (.str "#00ff00"), .fill, .setStrokeStyle (.str "#000000"),
          .setLineWidth 2, .stroke],
        handlers := none, raised := none } :=
  circle_centre true (.ok ()) "1000" 0 0 50 (.str "#00ff00") (.str "#000000") 2
    (by decide) (by decide) (by decide) (by decide) (by decide) (by decide)

/-- C9 at its failing input: in the scene `imageThenRectangle` the image comes
first and the rectangle second, and the image loads. The export draws the image
and then the rectangle; the preview makes every call of the rectangle first and
`drawImage` last, so the earlier element is painted over the later one. -/
theorem preview_draws_image_after_later_element (strict : Bool) :
    exportRender strict loadsResolve imageThenRectangle =
      .ok [.setFillStyle (.str "#ffffff"), .fillRect 0 0 200 200,
        .drawImage (.base64 (.str onePixelPng)) 0 0 100 100,
        .setFillStyle (.str "#ff0000"), .setStrokeStyle (.str "#000000"),
        .setLineWidth 1, .fillRect 0 0 100 100,
        .strokeRect 0 0 100 100] ∧
    previewRender loadsResolve [0] imageThenRectangle =
      [.setFillStyle (.str "#ffffff"), .fillRect 0 0 200 200,
        .setFillStyle (.str "#ff0000"), .setStrokeStyle (.str "#000000"),
        .setLineWidth 1, .fillRect 0 0 100 100,
        .strokeRect 0 0 100 100,
        .drawImage (.base64 (.str onePixelPng)) 0 0 100 100] := by
  cases strict <;> decide

/-- C10 at its failing input: in the scene `urlImageOnly` the load of the only
image fails. The export makes no call for it; the preview draws the gray
placeholder and its caption; the two call sequences differ. -/
theorem renderers_differ_on_failed_url (strict : Bool) :
    exportRender strict loadsFail urlImageOnly =
      .ok [.setFillStyle (.str "#ffffff"), .fillRect 0 0 200 200] ∧
    previewRender loadsFail [0] urlImageOnly =
      [.setFillStyle (.str "#ffffff"), .fillRect 0 0 200 200,
        .setFillStyle (.str "#cccccc"), .fillRect 10 20 100 50,
        .setFillStyle (.str "#666666"), .setFont (.literal "12px Arial"),
        .fillText (.str "Image failed to load") 15 40] ∧
    exportRender strict loadsFail urlImageOnly ≠
      .ok (previewRender loadsFail [0] urlImageOnly) := by
  cases strict <;> decide

/-! ## Failed image loads -/

/-- For an image element that carries only a URL and whose load fails, the
export side makes no call, and the preview side has an `onerror` handler that
fills the box `(x, y, width, height)` in gray and writes the caption at
`(x + 5, y + 20)`. -/
theorem failed_url_image_calls (strict : Bool) (message : String) (id : String)
    (x y width height : JsNumber) (imageData imageUrl : JsValue)
    (hd : toBoolean imageData = false) (hu : toBoolean imageUrl = true) :
    drawElement strict (.error message)
      (.image id x y width height imageData imageUrl) = .ok [] ∧
    drawElementOnPreview (.image id x y width height imageData imageUrl) =
      { calls := [],
        handlers := some
          { onload := [.drawImage (.url imageUrl) x y width height],
            onerror :=
              [.setFillStyle (.str "#cccccc"), .fillRect x y width height,
                .setFillStyle (.str "#666666"), .setFont (.literal "12px Arial"),
                .fillText (.str "Image failed to load") (x + 5) (y + 20)] },
        raised := none } := by
  simp [drawElement, drawElementOnPreview, hd, hu]

/-- C11 at its failing input: for the image `urlImage` (URL only, box
`(30, 40, 120, 80)`) whose load fails, `drawElement` returns without having
made any call on `ctx` (no gray box, no caption), while the `onerror` handler
set by `drawElementOnPreview` draws the gray box over `(30, 40, 120, 80)` and
then the caption at `(35, 60)`. -/
theorem export_draws_no_placeholder (strict : Bool) :
    drawElement strict (.error "getaddrinfo ENOTFOUND") urlImage = .ok [] ∧
    drawElementOnPreview urlImage =
      { calls := [],
        handlers := some
          { onload :=
              [.drawImage (.url (.str "http://unreachable.invalid/b.png")) 30 40 120 80],
            onerror :=
              [.setFillStyle (.str "#cccccc"), .fillRect 30 40 120 80,
                .setFillStyle (.str "#666666"), .setFont (.literal "12px Arial"),
                .fillText (.str "Image failed to load") 35 60] },
        raised := none } := by
  cases strict <;> decide

theorem drawElement_image_failed (strict : Bool) (message : String) (id : String)
    (x y width height : JsNumber) (imageData imageUrl : JsValue) :
    drawElement strict (.error message)
      (.image id x y width height imageData imageUrl) = .ok [] := by
  cases hd : toBoolean imageData <;> cases hu : toBoolean imageUrl <;>
    simp [drawElement, hd, hu]

/-- C12: for every scene, every image element in it whose load throws, and
libraries that do not throw (the context on the calls of the other elements,
`createCanvas`, the document steps), `drawElement` returns for that element
without raising and without a call on `ctx`, the export loop draws every
earlier and every later element in order, and the export handler answers with
the document (status 200, not its 500 branch) and leaves the store as it
was. -/
theorem export_survives_failed_image (libs : ExportLibs) (loads : ℕ → Except String Unit)
    (scene : Scene) (pre post : List Element) (id : String) (x y width height : JsNumber)
    (imageData imageUrl : JsValue) (message : String) (before after : List DrawOp)
    (hel : scene.elements = pre ++ .image id x y width height imageData imageUrl :: post)
    (hfail : loads pre.length = .error message)
    (hpre : drawElements libs.strict loads 0 pre = .ok before)
    (hpost : drawElements libs.strict loads (pre.length + 1) post = .ok after)
    (hcanvas : libs.createCanvas scene.width scene.height = .ok ())
    (hstart : libs.startDocument scene.width scene.height
      (whiteFill scene ++ (before ++ after)) = .ok ())
    (hfinish : libs.finishDocument scene.width scene.height
      (whiteFill scene ++ (before ++ after)) = .ok ()) :
    drawElement libs.strict (loads pre.length)
      (.image id x y width height imageData imageUrl) = .ok [] ∧
    drawElements libs.strict loads 0 scene.elements = .ok (before ++ after) ∧
    exportPdf libs loads scene =
      (.pdf { pageWidth := scene.width, pageHeight := scene.height,
              raster := whiteFill scene ++ (before ++ after) },
       scene) ∧
    (exportPdf libs loads scene).1.status = 200 := by
  have himg : drawElement libs.strict (loads pre.length)
      (.image id x y width height imageData imageUrl) = .ok [] := by
    rw [hfail]
    exact drawElement_image_failed _ _ _ _ _ _ _ _ _
  have hdraw : drawElements libs.strict loads 0 scene.elements = .ok (before ++ after) := by
    rw [hel]
    apply drawElements_append_ok libs.strict loads 0 pre _ before after hpre
    simp only [Nat.zero_add, drawElements, himg, hpost, List.nil_append]
  have hexp : exportPdf libs loads scene =
      (.pdf { pageWidth := scene.width, pageHeight := scene.height,
              raster := whiteFill scene ++ (before ++ after) },
       scene) := by
    simp only [exportPdf, hcanvas, exportRender, attempt_whiteFill, hdraw, hstart, hfinish]
  refine ⟨himg, hdraw, hexp, ?_⟩
  rw [hexp]
  rfl

/-- Witness of `export_survives_failed_image`: the scene whose only element is
an image by URL, every load failing, libraries that do not throw. -/
theorem export_survives_failed_image_witness :
    drawElement (libsSucceed true).strict (loadsFail ([] : List Element).length)
      (.image "1000" 10 20 100 50 .undefined (.str "http://unreachable.invalid/a.png")) =
        .ok [] ∧
    drawElements (libsSucceed true).strict loadsFail 0 urlImageOnly.elements =
      .ok ([] ++ []) ∧
    exportPdf (libsSucceed true) loadsFail urlImageOnly =
      (.pdf { pageWidth := urlImageOnly.width, pageHeight := urlImageOnly.height,
              raster := whiteFill urlImageOnly ++ ([] ++ []) },
       urlImageOnly) ∧
    (exportPdf (libsSucceed true) loadsFail urlImageOnly).1.status = 200 :=
  export_survives_failed_image (libsSucceed true) loadsFail urlImageOnly [] [] "1000"
    10 20 100 50 .undefined (.str "http://unreachable.invalid/a.png")
    "getaddrinfo ENOTFOUND" [] [] rfl rfl rfl rfl rfl rfl rfl

end CanvasApp
